import Mathlib

/-!
Verification of the CapCutAPI draft document model (`pyJianYingDraft/script_file.py`
and `add_effect_impl.py`) in a shallow embedding.

Conventions of the embedding:
* Python integers are `Int` (micro-second timestamps), list mutation becomes
  functional state passing, Python `dict` (insertion ordered) becomes an
  association list, and a raising method becomes `Except`.
* A method that mutates `self` and may raise returns
  `Except (PyErr × Script_file) Script_file`: the error case carries the state
  of the object at the moment the exception propagates, so partial mutation is
  observable exactly as in Python.
* Modules of the repository that are referenced from `script_file.py` but whose
  sources are not in the snapshot (`track.py`, `time_util.py`,
  `template_mode.py`, `text_segment.py`, the metadata tables) are modelled from
  the specification; every such definition is marked `Modelled from the spec:`.
-/

deriving instance DecidableEq for Except

namespace CapCut

/-- Time range `{start, duration}` in integer micro-units (`time_util.Timerange`). -/
structure Timerange where
  start : Int
  duration : Int
deriving DecidableEq, Repr

/-- Derived end time `start + duration` (the Python `Timerange.end` property). -/
def Timerange.end_ (t : Timerange) : Int := t.start + t.duration

/-- Errors raised by the Python code; `valueErrorLine` is the
`ValueError("Expected a number at line %d, got '%s'")` of `import_srt`. -/
inductive PyErr where
  | nameError (msg : String)
  | typeError (msg : String)
  | valueError (msg : String)
  | valueErrorLine (line : Nat) (got : String)
  | keyError (key : String)
  | assertionError (msg : String)
  | indexError (msg : String)
  | trackNotFound (msg : String)
  | ambiguousTrack (msg : String)
  | unboundLocal (var : String)
  | zeroDivision
deriving DecidableEq, Repr

/-- Video material (`local_materials.Video_material`): fields used by the
replace operations. -/
structure Video_material where
  material_id : String
  material_name : String
  path : String
  duration : Int
  width : Int
  height : Int
  material_type : String
deriving DecidableEq, Repr

/-- Audio material (`local_materials.Audio_material`). -/
structure Audio_material where
  material_id : String
  name : String
  path : String
  duration : Int
deriving DecidableEq, Repr

/-- Segment in/out animation collection, identified by `animation_id`. -/
structure Segment_animations where
  animation_id : String
deriving DecidableEq, Repr

/-- Video effect material, identified by `global_id`. -/
structure Video_effect where
  global_id : String
deriving DecidableEq, Repr

/-- Transition material, identified by `global_id`. -/
structure Transition where
  global_id : String
deriving DecidableEq, Repr

/-- Filter material, identified by `global_id`. -/
structure Filter where
  global_id : String
deriving DecidableEq, Repr

/-- Text bubble material (`text_segment.TextBubble`), identified by `effect_id`. -/
structure TextBubble where
  global_id : String
  effect_id : String
  resource_id : String
deriving DecidableEq, Repr

/-- Flower-text material (`text_segment.TextEffect`), identified by `effect_id`. -/
structure TextEffect where
  global_id : String
  effect_id : String
  resource_id : String
deriving DecidableEq, Repr

/-- Audio fade material, identified by `fade_id`. -/
structure Audio_fade where
  fade_id : String
deriving DecidableEq, Repr

/-- Audio effect material, identified by `effect_id`. -/
structure Audio_effect where
  effect_id : String
deriving DecidableEq, Repr

/-- Speed material attached to every video/audio segment. -/
structure Speed where
  speed_id : String
deriving DecidableEq, Repr

/-- Mask record as appended by `add_segment` (the `mask.export_json()` dict). -/
structure Mask where
  mask_id : String
deriving DecidableEq, Repr

/-- Background-filling (canvas) material. -/
structure BackgroundFilling where
  fill_id : String
deriving DecidableEq, Repr

/-- Entry of `Script_material.filters`: the list mixes `Filter`, `TextBubble`
and `TextEffect` objects (all exported into the `effects` category). -/
inductive FilterItem where
  | filt (f : Filter)
  | bubble (b : TextBubble)
  | textEffect (e : TextEffect)
deriving DecidableEq, Repr

/-- The `global_id` attribute read by `Script_material.__contains__` on entries
of the `filters` list. -/
def FilterItem.global_id : FilterItem → String
  | .filt f => f.global_id
  | .bubble b => b.global_id
  | .textEffect e => e.global_id

/-- Stable identity of a `filters` entry for the exactly-once claim: a
`Filter` is identified by `global_id`, a bubble or flower-text by `effect_id`. -/
def FilterItem.itemId : FilterItem → String
  | .filt f => f.global_id
  | .bubble b => b.effect_id
  | .textEffect e => e.effect_id

/-- Text material dict produced by `Text_segment.export_material()`. -/
structure TextMaterial where
  id : String
deriving DecidableEq, Repr

/-- Sticker material dict produced by `Sticker_segment.export_material()`. -/
structure StickerMaterial where
  id : String
deriving DecidableEq, Repr

/-- The materials section of a draft (`Script_material`). -/
structure Script_material where
  audios : List Audio_material
  videos : List Video_material
  stickers : List StickerMaterial
  texts : List TextMaterial
  audio_effects : List Audio_effect
  audio_fades : List Audio_fade
  animations : List Segment_animations
  video_effects : List Video_effect
  speeds : List Speed
  masks : List Mask
  transitions : List Transition
  filters : List FilterItem
  canvases : List BackgroundFilling
deriving DecidableEq, Repr

/-- The empty materials section (`Script_material.__init__`). -/
def Script_material.empty : Script_material :=
  ⟨[], [], [], [], [], [], [], [], [], [], [], [], []⟩

/-- Membership tests of `Script_material.__contains__`, one per runtime type
branch; each compares the stable id against the ids already stored. -/
def Script_material.containsVideo (m : Script_material) (v : Video_material) : Bool :=
  m.videos.any (fun x => x.material_id == v.material_id)

/-- Membership branch for `Audio_material`. -/
def Script_material.containsAudio (m : Script_material) (a : Audio_material) : Bool :=
  m.audios.any (fun x => x.material_id == a.material_id)

/-- Membership branch for `Audio_fade`. -/
def Script_material.containsFade (m : Script_material) (f : Audio_fade) : Bool :=
  m.audio_fades.any (fun x => x.fade_id == f.fade_id)

/-- Membership branch for `Audio_effect`. -/
def Script_material.containsAudioEffect (m : Script_material) (e : Audio_effect) : Bool :=
  m.audio_effects.any (fun x => x.effect_id == e.effect_id)

/-- Membership branch for `Segment_animations`. -/
def Script_material.containsAnimation (m : Script_material) (a : Segment_animations) : Bool :=
  m.animations.any (fun x => x.animation_id == a.animation_id)

/-- Membership branch for `Video_effect`. -/
def Script_material.containsVideoEffect (m : Script_material) (e : Video_effect) : Bool :=
  m.video_effects.any (fun x => x.global_id == e.global_id)

/-- Membership branch for `Transition`. -/
def Script_material.containsTransition (m : Script_material) (t : Transition) : Bool :=
  m.transitions.any (fun x => x.global_id == t.global_id)

/-- Membership branch for `Filter` (reads `global_id` of every `filters` entry). -/
def Script_material.containsFilter (m : Script_material) (f : Filter) : Bool :=
  m.filters.any (fun x => x.global_id == f.global_id)

/-- The `if item not in self.materials: append` idiom of the registration
code: append unless an element with the same key is already present. -/
def guardedAppendBy {α : Type} (key : α → String) (l : List α) (x : α) : List α :=
  if l.any (fun y => key y == key x) then l else l ++ [x]

/-- Video segment (`video_segment.Video_segment`): the fields `add_segment`
reads when doing its per-kind material bookkeeping. -/
structure Video_segment where
  target_timerange : Timerange
  material_instance : Video_material
  animations_instance : Option Segment_animations
  effects : List Video_effect
  filters : List Filter
  mask : Option Mask
  transition : Option Transition
  background_filling : Option BackgroundFilling
  speed : Speed
deriving DecidableEq, Repr

/-- Audio segment (`audio_segment.Audio_segment`). -/
structure Audio_segment where
  target_timerange : Timerange
  material_instance : Audio_material
  fade : Option Audio_fade
  effects : List Audio_effect
  speed : Speed
deriving DecidableEq, Repr

/-- Text segment (`text_segment.Text_segment`); `material_id` is the id under
which `export_material()` registers its text material. -/
structure Text_segment where
  target_timerange : Timerange
  material_id : String
  content : String
  animations_instance : Option Segment_animations
  bubble : Option TextBubble
  effect : Option TextEffect
deriving DecidableEq, Repr

/-- Sticker segment (`video_segment.Sticker_segment`). -/
structure Sticker_segment where
  target_timerange : Timerange
  sticker_id : String
deriving DecidableEq, Repr

/-- Effect segment built by `add_effect` (`effect_segment.Effect_segment`). -/
structure Effect_segment where
  target_timerange : Timerange
  effect_inst : Video_effect
deriving DecidableEq, Repr

/-- Filter segment built by `add_filter` (`effect_segment.Filter_segment`);
`intensity` is the 0-1 value obtained by dividing the argument by 100. -/
structure Filter_segment where
  target_timerange : Timerange
  material : Filter
  intensity : ℚ
deriving DecidableEq, Repr

/-- Segment of an imported (template-mode) track: keeps its original
`material_id`, its `extra_material_refs` and both time ranges. -/
structure ImportedSeg where
  material_id : String
  extra_material_refs : List String
  target_timerange : Timerange
  source_timerange : Timerange
deriving DecidableEq, Repr

/-- Union of the segment kinds a track can hold. -/
inductive Seg where
  | video (v : Video_segment)
  | audio (a : Audio_segment)
  | text (t : Text_segment)
  | sticker (s : Sticker_segment)
  | effect (e : Effect_segment)
  | filt (f : Filter_segment)
  | imported (i : ImportedSeg)
deriving DecidableEq, Repr

/-- The `target_timerange` of any segment. -/
def Seg.target_timerange : Seg → Timerange
  | .video v => v.target_timerange
  | .audio a => a.target_timerange
  | .text t => t.target_timerange
  | .sticker s => s.target_timerange
  | .effect e => e.target_timerange
  | .filt f => f.target_timerange
  | .imported i => i.target_timerange

/-- Segment end time (the Python `Base_segment.end` property). -/
def Seg.end_ (s : Seg) : Int := s.target_timerange.end_

/-- Update the `target_timerange` of a segment in place. -/
def Seg.setTimerange (s : Seg) (t : Timerange) : Seg :=
  match s with
  | .video v => .video { v with target_timerange := t }
  | .audio a => .audio { a with target_timerange := t }
  | .text x => .text { x with target_timerange := t }
  | .sticker x => .sticker { x with target_timerange := t }
  | .effect e => .effect { e with target_timerange := t }
  | .filt f => .filt { f with target_timerange := t }
  | .imported i => .imported { i with target_timerange := t }

/-- Track type enumeration (`track.Track_type`). -/
inductive TrackType where
  | video | audio | text | effect | filt | sticker
deriving DecidableEq, Repr

/-- Modelled from the spec: the default name of an unnamed track is its type
name (`track_name = track_type.name` in `add_track`). -/
def TrackType.typeName : TrackType → String
  | .video => "video"
  | .audio => "audio"
  | .text => "text"
  | .effect => "effect"
  | .filt => "filter"
  | .sticker => "sticker"

/-- Modelled from the spec: the type-specific base of `render_index`
(`track_type.value.render_index`, declared in the absent `track.py`);
concrete values are irrelevant to every claim, only the `base + relative`
arithmetic is. -/
def TrackType.baseRenderIndex : TrackType → Int
  | .video => 0
  | .audio => 0
  | .text => 15000
  | .effect => 10000
  | .filt => 11000
  | .sticker => 14000

/-- Does a track of this type accept a segment of that kind
(`Track.accept_segment_type`, declared in the absent `track.py`)?
Imported segments are only ever placed by `import_track`, never through
`Track.add_segment`, so they are accepted by no track type. -/
def TrackType.accepts : TrackType → Seg → Bool
  | .video, .video _ => true
  | .audio, .audio _ => true
  | .text, .text _ => true
  | .effect, .effect _ => true
  | .filt, .filt _ => true
  | .sticker, .sticker _ => true
  | _, _ => false

/-- A track (`track.Track`); `raw_data_segments` models the raw
`track.raw_data["segments"]` dicts an imported track keeps (empty for
authored tracks). -/
structure Track where
  track_type : TrackType
  name : String
  render_index : Int
  mute : Bool
  segments : List Seg
  raw_data_segments : List ImportedSeg
deriving DecidableEq, Repr

/-- Do two target ranges overlap?  Touching at a boundary is allowed. -/
def Timerange.overlaps (a b : Timerange) : Bool :=
  a.start < b.end_ && b.start < a.end_

/-- Insert a segment into a list kept sorted by `target_timerange.start`. -/
def insertSorted (s : Seg) : List Seg → List Seg
  | [] => [s]
  | x :: xs =>
    if s.target_timerange.start < x.target_timerange.start then s :: x :: xs
    else x :: insertSorted s xs

/-- Modelled from the spec: `Track.add_segment` (absent `track.py`) — fails
`TypeError` when the segment kind is not accepted by the track type, fails
`SegmentOverlap` when the new `target_timerange` intersects an existing one,
otherwise inserts in sorted position leaving the track otherwise unchanged. -/
def Track.add_segment (t : Track) (s : Seg) : Except PyErr Track :=
  if ¬ t.track_type.accepts s then
    .error (.typeError "segment type does not match track type")
  else if t.segments.any (fun s0 => s0.target_timerange.overlaps s.target_timerange) then
    .error (.valueError "SegmentOverlap")
  else
    .ok { t with segments := insertSorted s t.segments }

/-- Modelled from the spec: `EditableTrack.end_time` (absent
`template_mode.py`) — the maximum segment end time of the track, `0` when
empty. -/
def Track.end_time (t : Track) : Int :=
  (t.segments.map Seg.end_).foldl max 0

/-- Style entry of a text material's JSON `content`: the `range` pair plus the
untouched remainder of the style dict. -/
structure StyleEntry where
  rangeStart : Int
  rangeEnd : Int
  payload : String
deriving DecidableEq, Repr

/-- Parsed form of a text material's `content` JSON value. -/
structure TextContent where
  text : String
  styles : List StyleEntry
deriving DecidableEq, Repr

/-- Content value stored under a text material's `content` key: either a JSON
string (whose parse is carried, `json.loads`/`json.dumps` being inverse on it)
or an already-parsed object, which is what `replace_text`'s
`isinstance(mat["content"], str)` distinguishes. -/
inductive ContentVal where
  | str (c : TextContent)
  | obj (c : TextContent)
deriving DecidableEq, Repr

/-- Raw material dict held in `imported_materials`: every entry carries its
`id`; text materials additionally carry a `content` value, text templates the
`text_material_id` list of their `text_info_resources`. -/
inductive ImportedMaterialEntry where
  | raw (id : String) (payload : String)
  | textMat (id : String) (content : ContentVal)
  | template (id : String) (name : String) (resourceIds : List String)
deriving DecidableEq, Repr

/-- The `id` key of a raw imported material dict. -/
def ImportedMaterialEntry.id : ImportedMaterialEntry → String
  | .raw i _ => i
  | .textMat i _ => i
  | .template i _ _ => i

/-- The draft document (`Script_file`).  `tracks` is the insertion-ordered
name-keyed dict (names are unique and equal to the key); the constant template
`content` envelope is not part of the model. -/
structure Script_file where
  width : Int
  height : Int
  fps : Int
  duration : Int
  materials : Script_material
  tracks : List Track
  imported_materials : List (String × List ImportedMaterialEntry)
  imported_tracks : List Track
deriving DecidableEq, Repr

/-- Fresh draft (`Script_file.__init__`): empty materials, no tracks, zero
duration; the constant JSON template `content` is not modelled. -/
def Script_file.create (width height fps : Int) : Script_file :=
  ⟨width, height, fps, 0, .empty, [], [], []⟩

/-- The `add_material` branch for a video material: skip when an equal
`material_id` is present, else append. -/
def Script_file.add_material_video (sf : Script_file) (material : Video_material) : Script_file :=
  { sf with materials := { sf.materials with
      videos := guardedAppendBy (fun x => x.material_id) sf.materials.videos material } }

/-- The `add_material` branch for an audio material. -/
def Script_file.add_material_audio (sf : Script_file) (material : Audio_material) : Script_file :=
  { sf with materials := { sf.materials with
      audios := guardedAppendBy (fun x => x.material_id) sf.materials.audios material } }

/-- Named part of `add_track` after the track name is settled: a duplicate
name makes the call a no-op returning `self`; otherwise the track is created
with `render_index = base + relative_index`, overridden by `absolute_index`. -/
def Script_file.add_track_named (sf : Script_file) (track_type : TrackType) (track_name : String)
    (mute : Bool) (relative_index : Int) (absolute_index : Option Int) : Script_file :=
  if sf.tracks.any (fun t => t.name == track_name) then sf
  else
    let render_index :=
      match absolute_index with
      | some ai => ai
      | none => track_type.baseRenderIndex + relative_index
    { sf with tracks := sf.tracks ++ [⟨track_type, track_name, render_index, mute, [], []⟩] }

/-- `Script_file.add_track`: an omitted name is only allowed for the first
track of the type (else `NameError`) and defaults to the type name. -/
def Script_file.add_track (sf : Script_file) (track_type : TrackType) (track_name : Option String)
    (mute : Bool) (relative_index : Int) (absolute_index : Option Int) :
    Except PyErr Script_file :=
  match track_name with
  | none =>
    if sf.tracks.any (fun t => t.track_type == track_type) then
      .error (.nameError "a track of this type already exists, name the new track")
    else
      .ok (sf.add_track_named track_type track_type.typeName mute relative_index absolute_index)
  | some n => .ok (sf.add_track_named track_type n mute relative_index absolute_index)

/-- Segment kind, standing for the Python `type(segment)` class object. -/
inductive SegKind where
  | video | audio | text | sticker | effect | filt
deriving DecidableEq, Repr

/-- The kind of a segment; imported segments are reconstructed raw segments
and are never passed to `add_segment`. -/
def Seg.kind : Seg → Option SegKind
  | .video _ => some .video
  | .audio _ => some .audio
  | .text _ => some .text
  | .sticker _ => some .sticker
  | .effect _ => some .effect
  | .filt _ => some .filt
  | .imported _ => none

/-- The segment class accepted by a track type (`Track.accept_segment_type`,
declared in the absent `track.py`). -/
def TrackType.acceptKind : TrackType → SegKind
  | .video => .video
  | .audio => .audio
  | .text => .text
  | .effect => .effect
  | .filt => .filt
  | .sticker => .sticker

/-- `Script_file.get_track`: by name, or by uniqueness of the authored track
accepting the segment type.  The unnamed case follows the specified
behaviour (resolve the unique accepting track, `TrackNotFound`/ambiguity
errors); the tie to the absent `Track_type.__eq__` is modelled from the spec. -/
def Script_file.get_track_idx (sf : Script_file) (segment_type : SegKind)
    (track_name : Option String) : Except PyErr Nat :=
  match track_name with
  | some n =>
    match sf.tracks.findIdx? (fun t => t.name == n) with
    | some i => .ok i
    | none => .error (.nameError "no track with this name")
  | none =>
    let accepting := sf.tracks.filter (fun t => t.track_type.acceptKind == segment_type)
    if accepting.length == 0 then .error (.trackNotFound "no track accepting this segment type")
    else if accepting.length > 1 then .error (.nameError "several tracks accept this segment type")
    else
      match sf.tracks.findIdx? (fun t => t.track_type.acceptKind == segment_type) with
      | some i => .ok i
      | none => .error (.trackNotFound "no track accepting this segment type")

/-- Locator of the track `add_segment` targets: position in the authored dict
or in the imported list. -/
inductive TrackLoc where
  | authored (i : Nat)
  | imported (i : Nat)
deriving DecidableEq, Repr

/-- Read the track a locator points at. -/
def Script_file.getTrackAt (sf : Script_file) : TrackLoc → Option Track
  | .authored i => sf.tracks.get? i
  | .imported i => sf.imported_tracks.get? i

/-- Write back the track a locator points at (the Python code mutates the
shared `Track` object in place). -/
def Script_file.updateTrackAt (sf : Script_file) : TrackLoc → Track → Script_file
  | .authored i, t => { sf with tracks := sf.tracks.set i t }
  | .imported i, t => { sf with imported_tracks := sf.imported_tracks.set i t }

/-- `Script_file._get_track_and_imported_track` reduced to the first element
of the returned list (`tracks[0]` is all `add_segment` uses): by name, the
authored track wins over imported ones; unnamed, the accepting track must be
unique across both lists. -/
def Script_file.findTargetTrack (sf : Script_file) (segment_type : SegKind)
    (track_name : Option String) : Except PyErr TrackLoc :=
  match track_name with
  | some n =>
    match sf.tracks.findIdx? (fun t => t.name == n) with
    | some i => .ok (.authored i)
    | none =>
      match sf.imported_tracks.findIdx? (fun t => t.name == n) with
      | some i => .ok (.imported i)
      | none => .error (.nameError "no track with this name")
  | none =>
    let a := sf.tracks.filter (fun t => t.track_type.acceptKind == segment_type)
    let b := sf.imported_tracks.filter (fun t => t.track_type.acceptKind == segment_type)
    if a.length + b.length == 0 then .error (.nameError "no track accepting this segment type")
    else if a.length + b.length > 1 then .error (.nameError "several tracks accept this segment type")
    else
      match sf.tracks.findIdx? (fun t => t.track_type.acceptKind == segment_type) with
      | some i => .ok (.authored i)
      | none =>
        match sf.imported_tracks.findIdx? (fun t => t.track_type.acceptKind == segment_type) with
        | some i => .ok (.imported i)
        | none => .error (.nameError "no track accepting this segment type")

/-- Guarded registration of an optional animation (`add_segment` lines
362-363 / 396-397): append only when not already contained. -/
def Script_material.regAnimation (m : Script_material) (a : Option Segment_animations) : Script_material :=
  { m with animations :=
      match a with
      | some a => guardedAppendBy (fun x => x.animation_id) m.animations a
      | none => m.animations }

/-- Guarded registration of the video effects of a segment (lines 365-367). -/
def Script_material.regVideoEffects (m : Script_material) (es : List Video_effect) : Script_material :=
  { m with video_effects :=
      es.foldl (fun acc e => guardedAppendBy (fun x => x.global_id) acc e) m.video_effects }

/-- Guarded registration of the `Filter` filters of a segment (lines 369-371). -/
def Script_material.regFilters (m : Script_material) (fs : List Filter) : Script_material :=
  { m with filters :=
      fs.foldl (fun acc f => guardedAppendBy FilterItem.global_id acc (.filt f)) m.filters }

/-- Unconditional registration of an optional mask (lines 373-374). -/
def Script_material.regMask (m : Script_material) (mk : Option Mask) : Script_material :=
  { m with masks := m.masks ++ mk.toList }

/-- Guarded registration of an optional transition (lines 376-377). -/
def Script_material.regTransition (m : Script_material) (t : Option Transition) : Script_material :=
  { m with transitions :=
      match t with
      | some t => guardedAppendBy (fun x => x.global_id) m.transitions t
      | none => m.transitions }

/-- Unconditional registration of an optional background filling (lines 379-380). -/
def Script_material.regCanvas (m : Script_material) (c : Option BackgroundFilling) : Script_material :=
  { m with canvases := m.canvases ++ c.toList }

/-- Unconditional registration of the segment speed (lines 382, 393). -/
def Script_material.regSpeed (m : Script_material) (s : Speed) : Script_material :=
  { m with speeds := m.speeds ++ [s] }

/-- Guarded registration of an optional audio fade (lines 387-388). -/
def Script_material.regFade (m : Script_material) (f : Option Audio_fade) : Script_material :=
  { m with audio_fades :=
      match f with
      | some f => guardedAppendBy (fun x => x.fade_id) m.audio_fades f
      | none => m.audio_fades }

/-- Guarded registration of the audio effects of a segment (lines 390-392). -/
def Script_material.regAudioEffects (m : Script_material) (es : List Audio_effect) : Script_material :=
  { m with audio_effects :=
      es.foldl (fun acc e => guardedAppendBy (fun x => x.effect_id) acc e) m.audio_effects }

/-- Unconditional registration of an optional text bubble (lines 399-400). -/
def Script_material.regBubble (m : Script_material) (b : Option TextBubble) : Script_material :=
  { m with filters := m.filters ++ (b.map FilterItem.bubble).toList }

/-- Unconditional registration of an optional flower-text effect (lines 402-403). -/
def Script_material.regTextEffect (m : Script_material) (e : Option TextEffect) : Script_material :=
  { m with filters := m.filters ++ (e.map FilterItem.textEffect).toList }

/-- Per-kind material bookkeeping of `add_segment` (script_file.py:359-409):
animations, video/audio effects, `Filter` filters, transitions and fades are
appended only when `__contains__` does not already find their id; masks,
canvases, speeds, stickers, bubbles, flower-text effects and text materials
are appended unconditionally. -/
def Script_file.registerSegmentMaterials (sf : Script_file) (segment : Seg) : Script_file :=
  match segment with
  | .video v =>
    let m := ((((((sf.materials.regAnimation v.animations_instance).regVideoEffects
      v.effects).regFilters v.filters).regMask v.mask).regTransition
      v.transition).regCanvas v.background_filling).regSpeed v.speed
    ({ sf with materials := m }).add_material_video v.material_instance
  | .sticker s =>
    { sf with materials := { sf.materials with stickers := sf.materials.stickers ++ [⟨s.sticker_id⟩] } }
  | .audio a =>
    let m := ((sf.materials.regFade a.fade).regAudioEffects a.effects).regSpeed a.speed
    ({ sf with materials := m }).add_material_audio a.material_instance
  | .text t =>
    let m := ((sf.materials.regAnimation t.animations_instance).regBubble t.bubble).regTextEffect t.effect
    { sf with materials := { m with texts := m.texts ++ [⟨t.material_id⟩] } }
  | .effect _ => sf
  | .filt _ => sf
  | .imported _ => sf

/-- `Script_file.add_segment`: resolve the target track, insert the segment
(`SegmentOverlap`/`TypeError` propagate with the document untouched), update
`duration` to `max(duration, segment.end)`, then register the referenced
materials. -/
def Script_file.add_segment (sf : Script_file) (segment : Seg) (track_name : Option String) :
    Except (PyErr × Script_file) Script_file :=
  match segment.kind with
  | none => .error (.typeError "imported segments cannot be added", sf)
  | some k =>
    match sf.findTargetTrack k track_name with
    | .error e => .error (e, sf)
    | .ok loc =>
      match sf.getTrackAt loc with
      | none => .error (.indexError "unreachable", sf)
      | some target =>
        match target.add_segment segment with
        | .error e => .error (e, sf)
        | .ok target' =>
          let sf1 := sf.updateTrackAt loc target'
          let sf2 := { sf1 with duration := max sf1.duration segment.end_ }
          .ok (sf2.registerSegmentMaterials segment)

/-- Effect metadata enum member (`Video_scene_effect_type` /
`Video_character_effect_type`, absent metadata module): name, effect id and
declared parameter count. -/
structure EffectMeta where
  name : String
  effect_id : String
  params_count : Nat
deriving DecidableEq, Repr

/-- Modelled from the spec: `Effect_segment.__init__` (absent
`effect_segment.py`) validates the optional parameter list against the
declared parameter count and the `[0,100]` value domain, failing
`InvalidParameter`, and builds the effect material instance. -/
def mkEffectSegment (effect : EffectMeta) (t_range : Timerange)
    (params : Option (List (Option ℚ))) : Except PyErr Effect_segment :=
  let ps := params.getD []
  if ps.length > effect.params_count then
    .error (.valueError "InvalidParameter: too many parameters")
  else if ps.any (fun p => match p with | some v => v < 0 ∨ v > 100 | none => false) then
    .error (.valueError "InvalidParameter: value out of range")
  else
    .ok ⟨t_range, ⟨effect.effect_id⟩⟩

/-- `Script_file.add_effect`: resolve the effect track, build the segment,
insert it, update `duration` with `t_range.start + t_range.duration`, then
append the effect material unless already present. -/
def Script_file.add_effect (sf : Script_file) (effect : EffectMeta) (t_range : Timerange)
    (track_name : Option String) (params : Option (List (Option ℚ))) :
    Except (PyErr × Script_file) Script_file :=
  match sf.get_track_idx .effect track_name with
  | .error e => .error (e, sf)
  | .ok i =>
    match mkEffectSegment effect t_range params with
    | .error e => .error (e, sf)
    | .ok segment =>
      match sf.tracks.get? i with
      | none => .error (.indexError "unreachable", sf)
      | some target =>
        match target.add_segment (.effect segment) with
        | .error e => .error (e, sf)
        | .ok target' =>
          let sf1 := { sf with tracks := sf.tracks.set i target' }
          let sf2 := { sf1 with duration := max sf1.duration (t_range.start + t_range.duration) }
          if sf2.materials.containsVideoEffect segment.effect_inst then .ok sf2
          else .ok { sf2 with materials :=
            { sf2.materials with video_effects := sf2.materials.video_effects ++ [segment.effect_inst] } }

/-- Filter metadata enum member (`Filter_type`, absent metadata module). -/
structure FilterMeta where
  name : String
  filter_id : String
deriving DecidableEq, Repr

/-- `Script_file.add_filter`: resolve the filter track, build the segment with
`intensity / 100`, insert it, update `duration` with `t_range.end`, then
append the filter material unconditionally. -/
def Script_file.add_filter (sf : Script_file) (filter_meta : FilterMeta) (t_range : Timerange)
    (track_name : Option String) (intensity : ℚ) :
    Except (PyErr × Script_file) Script_file :=
  match sf.get_track_idx .filt track_name with
  | .error e => .error (e, sf)
  | .ok i =>
    let segment : Filter_segment := ⟨t_range, ⟨filter_meta.filter_id⟩, intensity / 100⟩
    match sf.tracks.get? i with
    | none => .error (.indexError "unreachable", sf)
    | some target =>
      match target.add_segment (.filt segment) with
      | .error e => .error (e, sf)
      | .ok target' =>
        let sf1 := { sf with tracks := sf.tracks.set i target' }
        let sf2 := { sf1 with duration := max sf1.duration t_range.end_ }
        .ok { sf2 with materials :=
          { sf2.materials with filters := sf2.materials.filters ++ [.filt segment.material] } }

/-- Boolean order on tracks used by `dumps` (`track.render_index` key). -/
def trackLe (a b : Track) : Bool := decide (a.render_index ≤ b.render_index)

/-- Track list produced by `dumps` (script_file.py:917-921): authored tracks
in insertion order, then imported tracks, stably sorted by `render_index`
(Python `list.sort` is stable; `List.mergeSort` is its stable counterpart). -/
def Script_file.dumps_tracks (sf : Script_file) : List Track :=
  (sf.tracks ++ sf.imported_tracks).mergeSort trackLe

/-- Look a category up in the imported-materials dict. -/
def lookupCat (cats : List (String × List ImportedMaterialEntry)) (key : String) :
    Option (List ImportedMaterialEntry) :=
  (cats.find? (fun p => p.1 == key)).map Prod.snd

/-- Identifiers appearing in the `effects` category of the materials section
produced by `dumps`: `Script_material.export_json` serializes the `filters`
list under the `effects` key, then the imported `effects` entries are appended
(script_file.py:116,910-915). -/
def Script_file.dumps_effects_ids (sf : Script_file) : List String :=
  sf.materials.filters.map FilterItem.itemId
    ++ ((lookupCat sf.imported_materials "effects").getD []).map ImportedMaterialEntry.id

/-- Add an id to the collected set unless already present (Python `set.add`,
with the set modelled as a duplicate-free list). -/
def insertId (ids : List String) (i : String) : List String :=
  if i ∈ ids then ids else ids ++ [i]

/-- Material ids referenced by the raw segments of a track
(script_file.py:669-679): the truthy `material_id` plus every
`extra_material_refs` entry. -/
def collectIds (segs : List ImportedSeg) : List String :=
  segs.foldl (fun acc seg =>
    let acc := if seg.material_id ≠ "" then insertId acc seg.material_id else acc
    seg.extra_material_refs.foldl insertId acc) []

/-- Append an entry to a category of the imported-materials dict;
`none` models the `KeyError` of `self.imported_materials[material_type]`. -/
def appendToCat (cats : List (String × List ImportedMaterialEntry)) (key : String)
    (e : ImportedMaterialEntry) : Option (List (String × List ImportedMaterialEntry)) :=
  match cats with
  | [] => none
  | (k, l) :: rest =>
    if k == key then some ((k, l ++ [e]) :: rest)
    else (appendToCat rest key e).map (fun r => (k, l) :: r)

/-- Inner copy loop of `import_track` over one source category
(script_file.py:683-686): each source material whose id is still wanted is
deep-copied into the same category of the destination and its id removed. -/
def copyFromList (sf : Script_file) (key : String) :
    List ImportedMaterialEntry → List String → Except (PyErr × Script_file) (Script_file × List String)
  | [], ids => .ok (sf, ids)
  | mat :: rest, ids =>
    if mat.id ∈ ids then
      match appendToCat sf.imported_materials key mat with
      | none => .error (.keyError key, sf)
      | some cats =>
        copyFromList { sf with imported_materials := cats } key rest (ids.erase mat.id)
    else copyFromList sf key rest ids

/-- Outer copy loop of `import_track` over the source categories
(script_file.py:682). -/
def copyMaterials (sf : Script_file) (cats : List (String × List ImportedMaterialEntry))
    (ids : List String) : Except (PyErr × Script_file) (Script_file × List String) :=
  match cats with
  | [] => .ok (sf, ids)
  | (key, l) :: rest =>
    match copyFromList sf key l ids with
    | .error e => .error e
    | .ok (sf1, ids1) => copyMaterials sf1 rest ids1

/-- The deep copy, render-index override, renaming and offset application of
`import_track` (script_file.py:654-665): every segment start is shifted by
the offset and clamped at 0; a zero offset skips the loop entirely. -/
def importTrackBuild (track : Track) (offset : Int) (new_name : Option String)
    (relative_index : Option Int) : Track :=
  let t1 :=
    match relative_index with
    | some ri => { track with render_index := track.track_type.baseRenderIndex + ri }
    | none => track
  let t2 :=
    match new_name with
    | some n => { t1 with name := n }
    | none => t1
  if offset ≠ 0 then
    { t2 with segments := t2.segments.map (fun seg =>
        seg.setTimerange ⟨max 0 (seg.target_timerange.start + offset),
                          seg.target_timerange.duration⟩) }
  else t2

/-- The final assertion and duration update of `import_track`
(script_file.py:688-693): any id left uncopied fails the assertion;
otherwise `duration` is raised to the source track's end time. -/
def importTrackFinish (r : Except (PyErr × Script_file) (Script_file × List String))
    (srcEnd : Int) : Except (PyErr × Script_file) Script_file :=
  match r with
  | .error e => .error e
  | .ok (sf2, remaining) =>
    if remaining ≠ [] then .error (.assertionError "materials not found", sf2)
    else .ok { sf2 with duration := max sf2.duration srcEnd }

/-- `Script_file.import_track` (script_file.py:640-693): deep-copy the track,
apply renaming / render-index override, shift every segment start by the
offset clamping at 0, append the track to `imported_tracks`, then copy every
referenced material id from the source's imported materials, failing the
final assertion when an id was not found; `duration` is raised to the
*source* track's `end_time`.  The error case carries the partially mutated
document exactly as the propagating Python exception would leave it. -/
def Script_file.import_track (sf : Script_file) (source_file : Script_file) (track : Track)
    (offset : Int) (new_name : Option String) (relative_index : Option Int) :
    Except (PyErr × Script_file) Script_file :=
  let imported_track := importTrackBuild track offset new_name relative_index
  let sf1 := { sf with imported_tracks := sf.imported_tracks ++ [imported_track] }
  let material_ids := collectIds track.raw_data_segments
  importTrackFinish (copyMaterials sf1 source_file.imported_materials material_ids)
    track.end_time

/-- Modelled from the spec: `Shrink_mode` — only the default `cut_tail`
policy is specified (truncate the segment's tail so its duration matches the
new source range). -/
inductive Shrink_mode where
  | cut_tail
deriving DecidableEq, Repr

/-- Modelled from the spec: `Extend_mode` — only the default
`cut_material_tail` policy is specified (truncate the source tail, keeping
the segment length fixed). -/
inductive Extend_mode where
  | cut_material_tail
deriving DecidableEq, Repr

/-- Union of the two local material kinds accepted by the replace operations. -/
inductive VAMaterial where
  | video (v : Video_material)
  | audio (a : Audio_material)
deriving DecidableEq, Repr

/-- The `material_id` of a local material. -/
def VAMaterial.material_id : VAMaterial → String
  | .video v => v.material_id
  | .audio a => a.material_id

/-- The `duration` of a local material. -/
def VAMaterial.duration : VAMaterial → Int
  | .video v => v.duration
  | .audio a => a.duration

/-- Modelled from the spec: `ImportedMediaTrack.check_material_type` — the
material kind must match the track type. -/
def Track.check_material_type (t : Track) (m : VAMaterial) : Bool :=
  match t.track_type, m with
  | .video, .video _ => true
  | .audio, .audio _ => true
  | _, _ => false

/-- Modelled from the spec: `ImportedMediaTrack.process_timerange` (absent
`template_mode.py`) — with the default policies, a shorter source range
truncates the segment's tail so the segment duration equals the new source
duration (`cut_tail`), a longer one truncates the source tail keeping the
segment length fixed (`cut_material_tail`); the segment's start is untouched. -/
def processTimerange (seg : ImportedSeg) (source_timerange : Timerange)
    (_hs : Shrink_mode) (_he : List Extend_mode) : ImportedSeg :=
  if source_timerange.duration < seg.target_timerange.duration then
    { seg with
      target_timerange := ⟨seg.target_timerange.start, source_timerange.duration⟩
      source_timerange := source_timerange }
  else if source_timerange.duration > seg.target_timerange.duration then
    { seg with source_timerange := ⟨source_timerange.start, seg.target_timerange.duration⟩ }
  else
    { seg with source_timerange := source_timerange }

/-- `Script_file.replace_material_by_seg` (script_file.py:733-777) acting on
the imported track at position `trackIdx` (the Python argument is the shared
`Track` object returned by `get_imported_track`; the position stands for that
aliasing).  Note the final `TODO: 更新总长` of the source: `duration` is NOT
recomputed. -/
def Script_file.replace_material_by_seg (sf : Script_file) (trackIdx : Nat)
    (segment_index : Int) (material : VAMaterial) (source_timerange : Option Timerange)
    (handle_shrink : Shrink_mode) (handle_extend : List Extend_mode) :
    Except (PyErr × Script_file) Script_file :=
  match sf.imported_tracks.get? trackIdx with
  | none => .error (.indexError "no such imported track", sf)
  | some track =>
    if ¬(track.track_type == TrackType.video ∨ track.track_type == TrackType.audio) then
      .error (.typeError "track does not support material replacement", sf)
    else if ¬(0 ≤ segment_index ∧ segment_index < track.segments.length) then
      .error (.indexError "segment index out of range", sf)
    else if ¬ track.check_material_type material then
      .error (.typeError "material type does not match track type", sf)
    else
      match track.segments.get? segment_index.toNat with
      | none => .error (.indexError "unreachable", sf)
      | some seg =>
        match seg with
        | .imported iseg =>
          let src_range :=
            match source_timerange with
            | some tr => tr
            | none =>
              match material with
              | .video v =>
                if v.material_type == "photo" then Timerange.mk 0 iseg.target_timerange.duration
                else Timerange.mk 0 v.duration
              | .audio a => Timerange.mk 0 a.duration
          let iseg1 := processTimerange iseg src_range handle_shrink handle_extend
          let iseg2 := { iseg1 with material_id := material.material_id }
          let track1 := { track with segments := track.segments.set segment_index.toNat (.imported iseg2) }
          let sf1 := { sf with imported_tracks := sf.imported_tracks.set trackIdx track1 }
          let sf2 :=
            match material with
            | .video v => sf1.add_material_video v
            | .audio a => sf1.add_material_audio a
          .ok sf2
        | _ => .error (.typeError "segment is not an imported media segment", sf)

/-- The `material_id` read off a segment by the replace operations (imported
segments keep their original id; authored text segments carry the id of
their text material). -/
def Seg.material_id_attr : Seg → Option String
  | .imported i => some i.material_id
  | .text t => some t.material_id
  | _ => none

/-- `__recalc_style_range` of `replace_text` (script_file.py:799-808): each
range bound becomes `ceil(bound / old_len * new_len)` and a style whose new
start equals its new end is dropped.  The Python float division is modelled
as exact rational arithmetic; a zero `old_len` with a non-empty style list
raises `ZeroDivisionError`. -/
def recalcStyleRange (old_len new_len : Int) : List StyleEntry → Except PyErr (List StyleEntry)
  | [] => .ok []
  | style :: rest =>
    if old_len = 0 then .error .zeroDivision
    else
      let start := Int.ceil ((style.rangeStart : ℚ) / (old_len : ℚ) * (new_len : ℚ))
      let stop := Int.ceil ((style.rangeEnd : ℚ) / (old_len : ℚ) * (new_len : ℚ))
      match recalcStyleRange old_len new_len rest with
      | .error e => .error e
      | .ok tail =>
        .ok (if start ≠ stop then ⟨start, stop, style.payload⟩ :: tail else tail)

/-- The `isinstance(text, list)` normalization of the plain-text branch of
`replace_text` (lines 817-820): a list must have exactly one element. -/
def getSingleText : String ⊕ List String → Except PyErr String
  | .inl s => .ok s
  | .inr [t] => .ok t
  | .inr _ => .error (.valueError "a plain text segment takes exactly one replacement string")

/-- Scan of `imported_materials["texts"]` in the plain-text branch of
`replace_text` (lines 813-828): the first material with the segment's id has
its JSON content parsed, its styles optionally rescaled and its text
replaced; `none` means no material matched (`replaced` stays false). -/
def replacePlainScan (material_id : String) (newText : String ⊕ List String)
    (recalc_style : Bool) :
    List ImportedMaterialEntry → Except PyErr (Option (List ImportedMaterialEntry))
  | [] => .ok none
  | mat :: rest =>
    if mat.id == material_id then
      match getSingleText newText with
      | .error e => .error e
      | .ok t =>
        match mat with
        | .textMat i (.str c) =>
          let styles :=
            if recalc_style then recalcStyleRange (c.text.length : Int) (t.length : Int) c.styles
            else .ok c.styles
          match styles with
          | .error e => .error e
          | .ok styles1 => .ok (some (.textMat i (.str ⟨t, styles1⟩) :: rest))
        | .textMat _ (.obj _) => .error (.typeError "json.loads expects a string")
        | _ => .error (.keyError "content")
    else
      match replacePlainScan material_id newText recalc_style rest with
      | .error e => .error e
      | .ok none => .ok none
      | .ok (some rest1) => .ok (some (mat :: rest1))

/-- Replacement of one template slot (lines 843-856): the first text material
with the sub-material id has its content replaced — wholesale when the
content is a JSON string, via parse/rescale when it is a parsed object (a
parsed object is a Python dict, on which `json.loads` raises `TypeError`). -/
def replaceTemplateSlot (sub_material_id : String) (new_text : String)
    (_recalc_style : Bool) :
    List ImportedMaterialEntry → Except PyErr (List ImportedMaterialEntry)
  | [] => .ok []
  | mat :: rest =>
    if mat.id == sub_material_id then
      match mat with
      | .textMat i (.str _) => .ok (.textMat i (.str ⟨new_text, []⟩) :: rest)
      | .textMat _ (.obj _) => .error (.typeError "json.loads expects a string")
      | _ => .error (.keyError "content")
    else
      match replaceTemplateSlot sub_material_id new_text _recalc_style rest with
      | .error e => .error e
      | .ok rest1 => .ok (mat :: rest1)

/-- Fold of `replaceTemplateSlot` over the zipped resource/text pairs
(lines 843-856). -/
def replaceTemplateSlots (recalc_style : Bool) :
    List (String × String) → List ImportedMaterialEntry → Except PyErr (List ImportedMaterialEntry)
  | [], texts => .ok texts
  | (sub_id, new_text) :: rest, texts =>
    match replaceTemplateSlot sub_id new_text recalc_style texts with
    | .error e => .error e
    | .ok texts1 => replaceTemplateSlots recalc_style rest texts1

/-- Scan of `imported_materials["text_templates"]` (lines 833-858): the first
template with the segment's id has its slots replaced; the replacement count
must not exceed the slot count. -/
def replaceTemplateScan (material_id : String) (texts0 : List String) (recalc_style : Bool)
    (textsCat : List ImportedMaterialEntry) :
    List ImportedMaterialEntry → Except PyErr (Option (List ImportedMaterialEntry))
  | [] => .ok none
  | mat :: rest =>
    if mat.id == material_id then
      match mat with
      | .template _ _ resourceIds =>
        if texts0.length > resourceIds.length then
          .error (.valueError "more replacement strings than template slots")
        else
          match replaceTemplateSlots recalc_style (resourceIds.zip texts0) textsCat with
          | .error e => .error e
          | .ok textsCat1 => .ok (some textsCat1)
      | _ => .error (.keyError "text_info_resources")
    else replaceTemplateScan material_id texts0 recalc_style textsCat rest

/-- Store a new list under a category key of the imported-materials dict. -/
def setCat (cats : List (String × List ImportedMaterialEntry)) (key : String)
    (l : List ImportedMaterialEntry) : List (String × List ImportedMaterialEntry) :=
  cats.map (fun p => if p.1 == key then (p.1, l) else p)

/-- `Script_file.replace_text` (script_file.py:779-862): checks, then the
plain-text branch over `imported_materials["texts"]`, then the template
branch, then the final `assert replaced`. -/
def Script_file.replace_text (sf : Script_file) (track : Track) (segment_index : Int)
    (text : String ⊕ List String) (recalc_style : Bool) :
    Except (PyErr × Script_file) Script_file :=
  if ¬(track.track_type == TrackType.text) then
    .error (.typeError "track does not support text replacement", sf)
  else if ¬(0 ≤ segment_index ∧ segment_index < track.segments.length) then
    .error (.indexError "segment index out of range", sf)
  else
    match track.segments.get? segment_index.toNat with
    | none => .error (.indexError "unreachable", sf)
    | some seg =>
      match seg.material_id_attr with
      | none => .error (.typeError "segment carries no material id", sf)
      | some material_id =>
        match lookupCat sf.imported_materials "texts" with
        | none => .error (.keyError "texts", sf)
        | some textsCat =>
          match replacePlainScan material_id text recalc_style textsCat with
          | .error e => .error (e, sf)
          | .ok (some textsCat1) =>
            .ok { sf with imported_materials := setCat sf.imported_materials "texts" textsCat1 }
          | .ok none =>
            let texts0 := match text with | .inl s => [s] | .inr l => l
            match lookupCat sf.imported_materials "text_templates" with
            | none => .error (.keyError "text_templates", sf)
            | some templatesCat =>
              match replaceTemplateScan material_id texts0 recalc_style textsCat templatesCat with
              | .error e => .error (e, sf)
              | .ok (some textsCat1) =>
                .ok { sf with imported_materials := setCat sf.imported_materials "texts" textsCat1 }
              | .ok none => .error (.assertionError "material of the segment not found", sf)

/-- Python `str.strip()`: drop leading and trailing whitespace.  Defined by
structural recursion on the character list (equivalent to `String.trim`,
which is well-founded-recursive and so opaque to kernel evaluation). -/
def pyStrip (s : String) : String :=
  ⟨((s.data.dropWhile Char.isWhitespace).reverse.dropWhile Char.isWhitespace).reverse⟩

/-- Python `str.isdigit` restricted to ASCII: non-empty and all digits
(stated over the character list, which recurses structurally). -/
def pyIsDigit (s : String) : Bool := (!s.data.isEmpty) && s.data.all Char.isDigit

/-- Split a character list on a single separator character (the behaviour of
Python `str.split(sep)` for a one-character separator), structurally. -/
def splitOnCharL (sep : Char) : List Char → List (List Char)
  | [] => [[]]
  | c :: rest =>
    match splitOnCharL sep rest with
    | [] => if c = sep then [[], [c]] else [[c]]
    | h :: t => if c = sep then [] :: h :: t else (c :: h) :: t

/-- Split a character list on the fixed `" --> "` separator of subtitle
timestamp lines (Python `line.split(" --> ")`), structurally: the nested
pattern consumes the five separator characters at once. -/
def splitArrow : List Char → List Char → List String
  | [], acc => [⟨acc.reverse⟩]
  | ' ' :: '-' :: '-' :: '>' :: ' ' :: rest, acc => ⟨acc.reverse⟩ :: splitArrow rest []
  | c :: rest, acc => splitArrow rest (c :: acc)

/-- Parse a decimal field of a subtitle timestamp. -/
def parseNatField (cs : List Char) : Except PyErr Nat :=
  if (!cs.isEmpty) && cs.all Char.isDigit then
    .ok (cs.foldl (fun n c => n * 10 + (c.toNat - '0'.toNat)) 0)
  else .error (.valueError "InvalidTimestamp")

/-- Modelled from the spec: `time_util.srt_tstamp` — parse the fixed
`HH:MM:SS,mmm` subtitle timestamp into integer micro-seconds, failing
`InvalidTimestamp` on malformed input. -/
def srt_tstamp (s : String) : Except PyErr Int :=
  match splitOnCharL ':' s.data with
  | [hh, mm, rest] =>
    match splitOnCharL ',' rest with
    | [ss, mmm] =>
      match parseNatField hh, parseNatField mm, parseNatField ss, parseNatField mmm with
      | .ok h, .ok m, .ok sec, .ok ms =>
        .ok ((((h * 60 + m) * 60 + sec) * 1000000 + ms * 1000 : Nat) : Int)
      | _, _, _, _ => .error (.valueError "InvalidTimestamp")
    | _ => .error (.valueError "InvalidTimestamp")
  | _ => .error (.valueError "InvalidTimestamp")

/-- The `read_state` flag of the `import_srt` line loop (`"index"`,
`"timestamp"`, `"content"`). -/
inductive ReadState where
  | idx | timestamp | content
deriving DecidableEq, Repr

/-- Constant parameters of one `import_srt` call threaded through its line
loop; `fontType` is `some` exactly when the local variable `font_type` has
been assigned. -/
structure SrtCfg where
  track_name : String
  time_offset : Int
  style_reference : Option Text_segment
  fontType : Option String
  bubble : Option TextBubble
  effect : Option TextEffect
deriving DecidableEq, Repr

/-- Modelled from the spec: segment construction of `__add_text_segment`
(script_file.py:530-557) — from the style reference when given (cloning its
bubble/flower-text unless overridden), else a fresh text segment; the
per-segment text material id stands for the generated uuid. -/
def mkSrtSegment (cfg : SrtCfg) (text : String) (t_range : Timerange) : Text_segment :=
  match cfg.style_reference with
  | some ref =>
    { ref with
      target_timerange := t_range
      content := text
      material_id := text
      bubble := match cfg.bubble with | some b => some b | none => ref.bubble
      effect := match cfg.effect with | some e => some e | none => ref.effect }
  | none =>
    { target_timerange := t_range
      material_id := text
      content := text
      animations_instance := none
      bubble := cfg.bubble
      effect := cfg.effect }

/-- `__add_text_segment` (script_file.py:523-563): reading `font_type` with
the local never assigned raises the unbound-variable error before anything is
mutated; otherwise the segment is built, a provided bubble and flower-text
are appended to the `filters` material list, and the segment is added via
`add_segment`. -/
def addTextSegmentSrt (cfg : SrtCfg) (doc : Script_file) (text : String) (t_range : Timerange) :
    Except (PyErr × Script_file) Script_file :=
  match cfg.fontType with
  | none => .error (.unboundLocal "font_type", doc)
  | some _ =>
    let seg := mkSrtSegment cfg text t_range
    let doc1 :=
      match cfg.bubble with
      | some b => { doc with materials := { doc.materials with filters := doc.materials.filters ++ [FilterItem.bubble b] } }
      | none => doc
    let doc2 :=
      match cfg.effect with
      | some e => { doc1 with materials := { doc1.materials with filters := doc1.materials.filters ++ [FilterItem.textEffect e] } }
      | none => doc1
    doc2.add_segment (.text seg) (some cfg.track_name)

/-- State of the `import_srt` line loop: the document built so far, the
number of consumed lines (the Python `index`), the accumulated cue text, the
cue time range local (unassigned before the first timestamp line) and the
`read_state` flag. -/
structure SrtState where
  doc : Script_file
  lineNo : Nat
  text : String
  text_trange : Option Timerange
  read_state : ReadState
deriving DecidableEq, Repr

/-- One iteration of the `import_srt` line loop (script_file.py:569-596):
process the line the current `read_state` expects and consume it (every
Python branch increments `index` exactly once); a malformed index line raises
`ValueError("Expected a number at line %d, got '%s'")` carrying the 1-based
line number. -/
def srtStep (cfg : SrtCfg) (line : String) (st : SrtState) :
    Except (PyErr × Script_file) SrtState :=
  match st.read_state with
  | .idx =>
    if (pyStrip line).isEmpty then
      .ok { st with lineNo := st.lineNo + 1 }
    else if !(pyIsDigit (pyStrip line)) then
      .error (.valueErrorLine (st.lineNo + 1) (pyStrip line), st.doc)
    else
      .ok { st with lineNo := st.lineNo + 1, read_state := .timestamp }
  | .timestamp =>
    match splitArrow (pyStrip line).data [] with
    | [start_str, end_str] =>
      match srt_tstamp start_str, srt_tstamp end_str with
      | .ok s, .ok e =>
        .ok { st with
              lineNo := st.lineNo + 1
              read_state := .content
              text_trange := some ⟨s + cfg.time_offset, e - s⟩ }
      | .error err, _ => .error (err, st.doc)
      | _, .error err => .error (err, st.doc)
    | _ => .error (.valueError "timestamp line does not split into two", st.doc)
  | .content =>
    if (pyStrip line).isEmpty then
      match st.text_trange with
      | none => .error (.unboundLocal "text_trange", st.doc)
      | some tr =>
        match addTextSegmentSrt cfg st.doc (pyStrip st.text) tr with
        | .error e => .error e
        | .ok doc1 =>
          .ok { doc := doc1, lineNo := st.lineNo + 1, text := "", text_trange := some tr,
                read_state := .idx }
    else
      .ok { st with lineNo := st.lineNo + 1, text := st.text ++ (pyStrip line) ++ "\n" }

/-- The `import_srt` line loop (script_file.py:565-596): `srtStep` per line,
errors propagating with the document built so far. -/
def srtLoop (cfg : SrtCfg) : List String → SrtState → Except (PyErr × Script_file) SrtState
  | [], st => .ok st
  | line :: rest, st =>
    match srtStep cfg line st with
    | .error e => .error e
    | .ok st1 => srtLoop cfg rest st1

/-- Modelled from the spec: the `Font_type` metadata table; `getattr` on an
unsupported name raises, converted to `ValueError`, and a falsy `font`
argument skips the assignment entirely. -/
def validFonts : List String := ["HanSans", "SourceSerif", "WenXuan"]

/-- Font resolution of `import_srt` (script_file.py:502-507): the result is
the value of the `font_type` local, `none` when it was never assigned. -/
def importSrtFont (font : Option String) : Except PyErr (Option String) :=
  match font with
  | none => .ok none
  | some f =>
    if f.isEmpty then .ok none
    else if f ∈ validFonts then .ok (some f)
    else .error (.valueError "Unsupported font")

/-- Track-existence check and creation of `import_srt`
(script_file.py:510-513): when no authored or imported track carries the
name, a text track with that name is created at `relative_index = 999`. -/
def Script_file.importSrtInit (sf : Script_file) (track_name : String) : Script_file :=
  let track_exists := sf.tracks.any (fun t => t.name == track_name)
    || sf.imported_tracks.any (fun t => t.name == track_name)
  if track_exists then sf
  else sf.add_track_named .text track_name false 999 none

/-- `Script_file.import_srt` (script_file.py:468-602): parameter validation,
font resolution, track creation when the named track is absent, the line
loop, and the final flush of a cue left open at end of input.  The content is
passed as its line list (`srt_content.splitlines()`); the local-file branch
is I/O and outside the model. -/
def Script_file.import_srt (sf : Script_file) (lines : List String) (track_name : String)
    (time_offset : Int) (style_reference : Option Text_segment) (font : Option String)
    (clip_settings : Option Unit) (bubble : Option TextBubble) (effect : Option TextEffect) :
    Except (PyErr × Script_file) Script_file :=
  if style_reference.isNone ∧ clip_settings.isNone then
    .error (.valueError "clip_settings required without a style reference", sf)
  else
    match importSrtFont font with
    | .error e => .error (e, sf)
    | .ok fontType =>
      let sf1 := sf.importSrtInit track_name
      let cfg : SrtCfg := ⟨track_name, time_offset, style_reference, fontType, bubble, effect⟩
      match srtLoop cfg lines ⟨sf1, 0, "", none, .idx⟩ with
      | .error e => .error e
      | .ok st =>
        if st.text.length > 0 then
          match st.text_trange with
          | none => .error (.unboundLocal "text_trange", st.doc)
          | some tr => addTextSegmentSrt cfg st.doc (pyStrip st.text) tr
        else .ok st.doc

/-- `Script_file.get_imported_track` (script_file.py:604-638): filter the
imported tracks by type, then by optional name and positional index among
tracks of that type; zero matches fail `TrackNotFound`, several fail
`AmbiguousTrack`. -/
def Script_file.get_imported_track (sf : Script_file) (track_type : TrackType)
    (name : Option String) (index : Option Nat) : Except PyErr Track :=
  let same := sf.imported_tracks.filter (fun t => t.track_type == track_type)
  let ret := same.enum.filter (fun p =>
    (match name with | some n => p.2.name == n | none => true)
    && (match index with | some i => p.1 == i | none => true))
  match ret with
  | [] => .error (.trackNotFound "no matching imported track")
  | [p] => .ok p.2
  | _ => .error (.ambiguousTrack "several matching imported tracks")

/-- Modelled from the spec: `tim` applied to an `f"{x}s"` seconds string
(absent `time_util.py`) — conversion to integer micro-seconds; no claim
depends on the rounding choice. -/
def tim_seconds (q : ℚ) : Int := Int.floor (q * 1000000)

/-- Modelled from the spec: the effect-type metadata table
(`Video_scene_effect_type` and friends); the Python `Enum[name]` lookup
raises `KeyError` on a missing name. -/
def effectTypeTable : List (String × EffectMeta) :=
  [("Glitch", ⟨"Glitch", "effect_glitch", 2⟩), ("Blur", ⟨"Blur", "effect_blur", 1⟩)]

/-- Is this error the `TrackNotFound` that `add_effect_impl` catches? -/
def PyErr.isTrackNotFound : PyErr → Bool
  | .trackNotFound _ => true
  | _ => false

/-- The track-ensuring step of `add_effect_impl` (add_effect_impl.py:57-66):
with a name, a `TrackNotFound` from `get_imported_track` triggers creation of
the named effect track, other errors propagate; without a name, the unnamed
`add_track` runs directly. -/
def addEffectImplTrackStep (script : Script_file) (track_name : Option String) :
    Except (PyErr × Script_file) Script_file :=
  match track_name with
  | some tn =>
    match script.get_imported_track .effect (some tn) none with
    | .ok _ => .ok script
    | .error e =>
      if e.isTrackNotFound then
        match script.add_track .effect (some tn) false 0 none with
        | .ok s => .ok s
        | .error e2 => .error (e2, script)
      else .error (e, script)
  | none =>
    match script.add_track .effect none false 0 none with
    | .ok s => .ok s
    | .error e => .error (e, script)

/-- `add_effect_impl` (add_effect_impl.py:9-77) acting on the draft fetched
from the cache: build the time range, resolve the effect enum member, ensure
the effect track exists, evaluate `params[::-1]` — a `TypeError` when
`params` is `None` — and only then call `Script_file.add_effect` with the
reversed list. -/
def add_effect_impl (script : Script_file) (effect_type : String) (start stop : ℚ)
    (track_name : Option String) (params : Option (List (Option ℚ))) :
    Except (PyErr × Script_file) Script_file :=
  let duration := stop - start
  let t_range : Timerange := ⟨tim_seconds start, tim_seconds duration⟩
  match (effectTypeTable.find? (fun p => p.1 == effect_type)).map Prod.snd with
  | none => .error (.keyError effect_type, script)
  | some effect_enum =>
    match addEffectImplTrackStep script track_name with
    | .error e => .error e
    | .ok script1 =>
      match params with
      | none => .error (.typeError "NoneType object is not subscriptable", script1)
      | some l => script1.add_effect effect_enum t_range track_name (some l.reverse)

/-- Did a modelled Python call return normally? -/
def resultOk {α : Type} : Except (PyErr × Script_file) α → Bool
  | .ok _ => true
  | .error _ => false

/-- The document state a modelled call leaves behind, whether it returned or
raised (the error payload carries the state at raise time). -/
def resultState : Except (PyErr × Script_file) Script_file → Script_file
  | .ok s => s
  | .error (_, s) => s

/-- Every segment of the document, over authored and imported tracks. -/
def Script_file.allSegments (sf : Script_file) : List Seg :=
  ((sf.tracks ++ sf.imported_tracks).map Track.segments).flatten

/-- The maximum segment end time over every track, authored and imported
(`0` when there is no segment) — the value the specified duration invariant
asserts `duration` always equals. -/
def Script_file.maxSegmentEnd (sf : Script_file) : Int :=
  (sf.allSegments.map Seg.end_).foldl max 0

/-! ## Concrete fixtures used by witnesses and counterexamples -/

/-- An authored video track named `"v"`. -/
def sampleTrackVideo : Track := ⟨.video, "v", 0, false, [], []⟩

/-- A draft holding the one authored track `"v"`. -/
def sampleDocC4 : Script_file :=
  { Script_file.create 1920 1080 30 with tracks := [sampleTrackVideo] }

/-! ## C4 — `add_track` idempotence on a duplicate name -/

/-- C4: calling `add_track` with the name of an already existing track is a
no-op — it raises no error and returns the document unchanged (hence track
count, type, render index, mute flag and segments of the existing track are
untouched). -/
theorem add_track_duplicate_name_noop (sf : Script_file) (track_type : TrackType)
    (n : String) (mute : Bool) (relative_index : Int) (absolute_index : Option Int)
    (h : ∃ t ∈ sf.tracks, t.name = n) :
    sf.add_track track_type (some n) mute relative_index absolute_index = Except.ok sf := by
  obtain ⟨t, ht, hn⟩ := h
  have hany : sf.tracks.any (fun t => t.name == n) = true := by
    rw [List.any_eq_true]
    exact ⟨t, ht, by simp [hn]⟩
  simp [Script_file.add_track, Script_file.add_track_named, hany]

/-- Witness for C4: on a concrete draft already holding a track named `"v"`,
a second `add_track` with that name (of any type and options) returns the
draft unchanged. -/
theorem add_track_duplicate_name_noop_witness :
    (∃ t ∈ sampleDocC4.tracks, t.name = "v")
    ∧ sampleDocC4.add_track .audio (some "v") true 5 none = Except.ok sampleDocC4 :=
  ⟨by decide, add_track_duplicate_name_noop sampleDocC4 .audio "v" true 5 none (by decide)⟩

/-! ## C7 — `import_track` offset clamping -/

/-- State left by the material-copy loops, which carry a residual id set. -/
def copyResultState : Except (PyErr × Script_file) (Script_file × List String) → Script_file
  | .ok (s, _) => s
  | .error (_, s) => s

lemma copyFromList_imported_tracks (key : String) (l : List ImportedMaterialEntry) :
    ∀ (sf : Script_file) (ids : List String),
      (copyResultState (copyFromList sf key l ids)).imported_tracks = sf.imported_tracks := by
  induction l with
  | nil => intro sf ids; rfl
  | cons mat rest ih =>
    intro sf ids
    unfold copyFromList
    by_cases hmem : mat.id ∈ ids
    · simp only [if_pos hmem]
      cases h : appendToCat sf.imported_materials key mat with
      | none => rfl
      | some cats => simpa using ih _ _
    · simp only [if_neg hmem]
      exact ih _ _

lemma copyMaterials_imported_tracks (cats : List (String × List ImportedMaterialEntry)) :
    ∀ (sf : Script_file) (ids : List String),
      (copyResultState (copyMaterials sf cats ids)).imported_tracks = sf.imported_tracks := by
  induction cats with
  | nil => intro sf ids; rfl
  | cons p rest ih =>
    intro sf ids
    unfold copyMaterials
    cases h : copyFromList sf p.1 p.2 ids with
    | error e =>
      have := copyFromList_imported_tracks p.1 p.2 sf ids
      rw [h] at this
      simpa [copyResultState] using this
    | ok q =>
      have := copyFromList_imported_tracks p.1 p.2 sf ids
      rw [h] at this
      simp only [copyResultState] at this
      simpa [ih q.1 q.2] using this

lemma Seg.setTimerange_self (s : Seg) : s.setTimerange s.target_timerange = s := by
  cases s <;> rfl

lemma importTrackFinish_tracks (r : Except (PyErr × Script_file) (Script_file × List String))
    (srcEnd : Int) :
    (resultState (importTrackFinish r srcEnd)).imported_tracks
      = (copyResultState r).imported_tracks := by
  cases r with
  | error e => rfl
  | ok q =>
    unfold importTrackFinish
    by_cases hrem : q.2 ≠ []
    · simp only [if_pos hrem]; rfl
    · simp only [if_neg hrem]; rfl

lemma importTrackBuild_segments (track : Track) (offset : Int) (new_name : Option String)
    (relative_index : Option Int) (h : ∀ seg ∈ track.segments, 0 ≤ seg.target_timerange.start) :
    (importTrackBuild track offset new_name relative_index).segments
      = track.segments.map (fun seg =>
          seg.setTimerange ⟨max 0 (seg.target_timerange.start + offset),
                            seg.target_timerange.duration⟩) := by
  unfold importTrackBuild
  by_cases hoff : offset ≠ 0
  · simp only [if_pos hoff]
    cases new_name <;> cases relative_index <;> rfl
  · push_neg at hoff
    subst hoff
    simp only [ne_eq, not_true_eq_false, if_false]
    have hmap : track.segments.map (fun seg =>
        seg.setTimerange ⟨max 0 (seg.target_timerange.start + 0),
                          seg.target_timerange.duration⟩) = track.segments := by
      have hcongr : ∀ seg ∈ track.segments,
          seg.setTimerange ⟨max 0 (seg.target_timerange.start + 0),
                            seg.target_timerange.duration⟩ = seg := by
        intro seg hseg
        have h0 : max 0 (seg.target_timerange.start + 0) = seg.target_timerange.start := by
          have := h seg hseg
          omega
        rw [h0]
        exact Seg.setTimerange_self seg
      exact (List.map_congr_left hcongr).trans (List.map_id _)
    rw [hmap]
    cases new_name <;> cases relative_index <;> rfl

/-- C7: the track appended by `import_track` — observable in the final state
whether the call returns or raises later during material copying — carries
exactly the source segments with each start replaced by
`max 0 (original_start + offset)` and every duration unchanged; in particular
a negative shifted start is floored to 0 and never causes a failure. -/
theorem import_track_offset_clamps (sf source : Script_file) (track : Track)
    (offset : Int) (new_name : Option String) (relative_index : Option Int)
    (h : ∀ seg ∈ track.segments, 0 ≤ seg.target_timerange.start) :
    ∃ tr, (resultState (sf.import_track source track offset new_name relative_index)).imported_tracks
            = sf.imported_tracks ++ [tr]
      ∧ tr.segments = track.segments.map (fun seg =>
          seg.setTimerange ⟨max 0 (seg.target_timerange.start + offset),
                            seg.target_timerange.duration⟩) := by
  refine ⟨importTrackBuild track offset new_name relative_index, ?_, ?_⟩
  · unfold Script_file.import_track
    rw [importTrackFinish_tracks, copyMaterials_imported_tracks]
  · exact importTrackBuild_segments track offset new_name relative_index h

/-- An imported video track whose single segment starts at 5 µs. -/
def c7track : Track := ⟨.video, "tv", 0, false, [.imported ⟨"", [], ⟨5, 7⟩, ⟨0, 7⟩⟩], []⟩

/-- Witness for C7: importing `c7track` with offset −10 µs appends a track
whose segment start is clamped to 0 with the duration kept at 7. -/
theorem import_track_offset_clamps_witness :
    ∃ tr, (resultState ((Script_file.create 1920 1080 30).import_track
            (Script_file.create 1920 1080 30) c7track (-10) none none)).imported_tracks
          = (Script_file.create 1920 1080 30).imported_tracks ++ [tr]
      ∧ tr.segments = c7track.segments.map (fun seg =>
          seg.setTimerange ⟨max 0 (seg.target_timerange.start + (-10)),
                            seg.target_timerange.duration⟩) :=
  import_track_offset_clamps (Script_file.create 1920 1080 30)
    (Script_file.create 1920 1080 30) c7track (-10) none none (by decide)

/-! ## C5 — export track ordering -/

lemma trackLe_trans : ∀ a b c : Track, trackLe a b = true → trackLe b c = true → trackLe a c = true := by
  intro a b c hab hbc
  simp only [trackLe, decide_eq_true_eq] at *
  omega

lemma trackLe_total : ∀ a b : Track, (trackLe a b || trackLe b a) = true := by
  intro a b
  simp only [trackLe, Bool.or_eq_true, decide_eq_true_eq]
  omega

/-- C5: the `tracks` list `dumps` serializes is a permutation of authored
tracks followed by imported tracks, is sorted by `render_index` ascending,
and the sort is stable: the tracks of any fixed `render_index` appear exactly
in their order within the concatenation. -/
theorem dumps_tracks_render_order (sf : Script_file) :
    (sf.dumps_tracks).Perm (sf.tracks ++ sf.imported_tracks)
    ∧ sf.dumps_tracks.Pairwise (fun a b => a.render_index ≤ b.render_index)
    ∧ ∀ r : Int, sf.dumps_tracks.filter (fun t => t.render_index == r)
        = (sf.tracks ++ sf.imported_tracks).filter (fun t => t.render_index == r) := by
  refine ⟨List.mergeSort_perm _ _, ?_, ?_⟩
  · have hs := @List.sorted_mergeSort _ trackLe trackLe_trans trackLe_total
      (sf.tracks ++ sf.imported_tracks)
    exact hs.imp (by intro a b h; simpa [trackLe] using h)
  · intro r
    set l := sf.tracks ++ sf.imported_tracks with hl
    set c := l.filter (fun t => t.render_index == r) with hc
    have hmemr : ∀ t ∈ c, t.render_index = r := by
      intro t ht
      have := (List.mem_filter.mp ht).2
      simpa using this
    have hc_pair : c.Pairwise (fun a b => trackLe a b = true) := by
      apply List.pairwise_of_forall_mem_list
      intro a ha b hb
      simp [trackLe, hmemr a ha, hmemr b hb]
    have hsub : c.Sublist (l.mergeSort trackLe) :=
      List.sublist_mergeSort trackLe_trans trackLe_total hc_pair (List.filter_sublist _)
    have hcfilter : c.filter (fun t => t.render_index == r) = c := by
      apply List.filter_eq_self.mpr
      intro t ht
      simp [hmemr t ht]
    have hsub2 : c.Sublist ((l.mergeSort trackLe).filter (fun t => t.render_index == r)) := by
      have := hsub.filter (fun t => t.render_index == r)
      rwa [hcfilter] at this
    have hlen : ((l.mergeSort trackLe).filter (fun t => t.render_index == r)).length = c.length := by
      have hperm := (List.mergeSort_perm l trackLe).filter (fun t => t.render_index == r)
      exact hperm.length_eq
    have : c = (l.mergeSort trackLe).filter (fun t => t.render_index == r) :=
      hsub2.eq_of_length hlen.symm
    exact this.symm

/-! ## C6 — `replace_text` style rescaling -/

lemma recalcStyleRange_eq (old_len new_len : Int) (h : old_len ≠ 0) :
    ∀ styles, recalcStyleRange old_len new_len styles
      = .ok (styles.filterMap (fun st =>
          let s1 := Int.ceil ((st.rangeStart : ℚ) / (old_len : ℚ) * (new_len : ℚ))
          let e1 := Int.ceil ((st.rangeEnd : ℚ) / (old_len : ℚ) * (new_len : ℚ))
          if s1 ≠ e1 then some ⟨s1, e1, st.payload⟩ else none)) := by
  intro styles
  induction styles with
  | nil => rfl
  | cons st rest ih =>
    unfold recalcStyleRange
    rw [if_neg h, ih]
    simp only [List.filterMap_cons]
    split <;> simp_all

lemma replacePlainScan_found (matId : String) (newText : String) (recalc : Bool)
    (post : List ImportedMaterialEntry) (c : TextContent) :
    ∀ pre : List ImportedMaterialEntry, (∀ m ∈ pre, m.id ≠ matId) →
    replacePlainScan matId (.inl newText) recalc
        (pre ++ ImportedMaterialEntry.textMat matId (.str c) :: post)
      = match (if recalc then recalcStyleRange (c.text.length : Int) (newText.length : Int) c.styles
               else .ok c.styles) with
        | .error e => .error e
        | .ok styles1 =>
          .ok (some (pre ++ ImportedMaterialEntry.textMat matId (.str ⟨newText, styles1⟩) :: post)) := by
  intro pre
  induction pre with
  | nil =>
    intro _
    unfold replacePlainScan
    simp only [List.nil_append, ImportedMaterialEntry.id, beq_self_eq_true, if_true]
    cases hst : (if recalc then recalcStyleRange (c.text.length : Int) (newText.length : Int) c.styles
                 else .ok c.styles) with
    | error e => simp [getSingleText, hst]
    | ok s1 => simp [getSingleText, hst]
  | cons m pre ih =>
    intro hpre
    have hne : (m.id == matId) = false := by
      simpa using hpre m (List.mem_cons_self m pre)
    have ih1 := ih (fun x hx => hpre x (List.mem_cons_of_mem m hx))
    unfold replacePlainScan
    simp only [List.cons_append, hne, Bool.false_eq_true, if_false]
    rw [ih1]
    cases hst : (if recalc then recalcStyleRange (c.text.length : Int) (newText.length : Int) c.styles
                 else .ok c.styles) with
    | error e => simp
    | ok s1 => simp

/-- C6: `replace_text` with `recalc_style` on a segment backed by a plain
text material rewrites each style range `[s, e]` of the old content to
`[⌈s / old_len · new_len⌉, ⌈e / old_len · new_len⌉]` and drops every style
whose rescaled bounds coincide, replacing the content text in place and
touching nothing else. -/
theorem replace_text_rescales_styles
    (sf : Script_file) (track : Track) (i : Int) (new_text : String)
    (pre post : List ImportedMaterialEntry) (matId : String) (c : TextContent)
    (htt : track.track_type = .text)
    (hi0 : 0 ≤ i) (hilen : i < track.segments.length)
    (hseg : (track.segments.get? i.toNat).bind Seg.material_id_attr = some matId)
    (hcat : lookupCat sf.imported_materials "texts"
      = some (pre ++ ImportedMaterialEntry.textMat matId (.str c) :: post))
    (hpre : ∀ m ∈ pre, m.id ≠ matId)
    (hlen : c.text ≠ "") :
    sf.replace_text track i (.inl new_text) true
      = .ok { sf with
              imported_materials :=
                setCat sf.imported_materials "texts"
                  (pre ++ ImportedMaterialEntry.textMat matId (.str ⟨new_text,
                    c.styles.filterMap (fun st =>
                      let s1 := Int.ceil ((st.rangeStart : ℚ) / ((c.text.length : Int) : ℚ)
                        * ((new_text.length : Int) : ℚ))
                      let e1 := Int.ceil ((st.rangeEnd : ℚ) / ((c.text.length : Int) : ℚ)
                        * ((new_text.length : Int) : ℚ))
                      if s1 ≠ e1 then some ⟨s1, e1, st.payload⟩ else none)⟩) :: post) } := by
  obtain ⟨seg, hget, hmat⟩ := Option.bind_eq_some.mp hseg
  have hlenN : c.text.length ≠ 0 := by
    intro h0
    apply hlen
    cases hx : c.text with
    | mk data =>
      cases data with
      | nil => rfl
      | cons ch cs => rw [hx] at h0; simp [String.length] at h0
  have hlen0 : (c.text.length : Int) ≠ 0 := by
    exact_mod_cast hlenN
  have hscan := replacePlainScan_found matId new_text true post c pre hpre
  rw [recalcStyleRange_eq _ _ hlen0] at hscan
  simp only [if_true] at hscan
  unfold Script_file.replace_text
  rw [htt]
  simp only [beq_self_eq_true, not_true_eq_false, if_false,
    hi0, hilen, and_self, not_true_eq_false, hget, hmat, hcat, hscan]

/-- Old text of length 10 with the style span `[2, 6]`. -/
def c6content : TextContent := ⟨"abcdefghij", [⟨2, 6, "style0"⟩]⟩

/-- Imported text track whose single segment references material `"mT"`. -/
def c6track : Track := ⟨.text, "tt", 0, false, [.imported ⟨"mT", [], ⟨0, 10⟩, ⟨0, 0⟩⟩], []⟩

/-- Draft holding the text material `"mT"` in its imported materials. -/
def c6doc : Script_file :=
  { Script_file.create 1920 1080 30 with
    imported_materials := [("texts", [.textMat "mT" (.str c6content)]), ("text_templates", [])] }

/-- Witness for C6: replacing the length-10 text carrying span `[2, 6]` by a
length-5 text rescales the span to `[⌈2/10·5⌉, ⌈6/10·5⌉] = [1, 3]`. -/
theorem replace_text_rescales_styles_witness :
    c6doc.replace_text c6track 0 (.inl "abcde") true
      = .ok { c6doc with
              imported_materials :=
                setCat c6doc.imported_materials "texts"
                  [ImportedMaterialEntry.textMat "mT" (.str ⟨"abcde", [⟨1, 3, "style0"⟩]⟩)] } := by
  have h := replace_text_rescales_styles c6doc c6track 0 "abcde" [] [] "mT" c6content
    (by decide) (by decide) (by decide) (by decide) (by decide)
    (fun m hm => absurd hm (List.not_mem_nil m)) (by decide)
  rw [h]
  norm_num [c6content, List.filterMap_cons, List.filterMap_nil,
    show "abcdefghij".length = 10 from rfl, show "abcde".length = 5 from rfl]

/-! ## C1 — the duration invariant is left stale by `replace_material_by_seg` -/

/-- Imported video segment occupying `[0, 100)`, referencing material `"m1"`. -/
def c1seg : ImportedSeg := ⟨"m1", [], ⟨0, 100⟩, ⟨0, 100⟩⟩

/-- Imported video track holding `c1seg`. -/
def c1track : Track := ⟨.video, "tv", 0, false, [.imported c1seg], [c1seg]⟩

/-- Draft whose duration 100 equals its maximum segment end, as the invariant
demands before the call. -/
def c1doc : Script_file :=
  { Script_file.create 1920 1080 30 with duration := 100, imported_tracks := [c1track] }

/-- A 50 µs replacement video material. -/
def c1mat : Video_material := ⟨"m2", "new", "/tmp/v.mp4", 50, 100, 100, "video"⟩

/-- C1 (code evaluated at the failing input): replacing the only segment's
material with a 50 µs asset under the default `cut_tail` shrink policy
succeeds and shortens the segment to 50 µs, yet `duration` stays 100 — the
`TODO: 更新总长` left in `replace_material_by_seg` (script_file.py:776) skips
the recomputation the invariant requires, so afterwards
`duration ≠ maxSegmentEnd`. -/
theorem replace_material_by_seg_stale_duration :
    resultOk (c1doc.replace_material_by_seg 0 0 (.video c1mat) none
      .cut_tail [.cut_material_tail]) = true
    ∧ (resultState (c1doc.replace_material_by_seg 0 0 (.video c1mat) none
        .cut_tail [.cut_material_tail])).duration = 100
    ∧ (resultState (c1doc.replace_material_by_seg 0 0 (.video c1mat) none
        .cut_tail [.cut_material_tail])).maxSegmentEnd = 50 := by
  decide

/-! ## C2 — failing mutations are not all atomic -/

/-- Imported track whose raw segment references a material id `"m1"` that is
absent from the source document's imported materials. -/
def c2track : Track := ⟨.video, "tt", 0, false, [], [⟨"m1", [], ⟨0, 10⟩, ⟨0, 10⟩⟩]⟩

/-- Destination draft with an empty `videos` imported category. -/
def c2dest : Script_file :=
  { Script_file.create 1920 1080 30 with imported_materials := [("videos", [])] }

/-- Source draft that does not contain material `"m1"`. -/
def c2source : Script_file :=
  { Script_file.create 1920 1080 30 with imported_materials := [("videos", [])] }

/-- C2 counterexample: `import_track` referencing a missing material id fails
its final assertion *after* appending the deep-copied track, so the document
observable after the failed call differs from the one before — the claimed
atomicity does not hold for `import_track`. -/
theorem import_track_not_atomic_counterexample :
    resultOk (c2dest.import_track c2source c2track 0 none none) = false
    ∧ resultState (c2dest.import_track c2source c2track 0 none none) ≠ c2dest
    ∧ (resultState (c2dest.import_track c2source c2track 0 none none)).imported_tracks.length
        = 1 := by
  decide

/-- C2 amended: `add_segment` is atomic — whenever it raises (unknown track,
type mismatch, `SegmentOverlap`), the document it leaves behind is exactly
the one it started from; `import_track` is the exception the counterexample
exhibits, appending its track before validating material ids. -/
theorem add_segment_error_leaves_document_unchanged (sf : Script_file) (segment : Seg)
    (track_name : Option String) (e : PyErr) (d : Script_file)
    (h : sf.add_segment segment track_name = .error (e, d)) : d = sf := by
  unfold Script_file.add_segment at h
  repeat' split at h
  all_goals simp_all

/-- An authored text segment fixture. -/
def segX : Seg := .text ⟨⟨0, 5⟩, "xx", "hello", none, none, none⟩

/-- Witness for the amended C2: a concrete `add_segment` naming a track that
does not exist raises and leaves the concrete document unchanged. -/
theorem add_segment_error_leaves_document_unchanged_witness :
    resultState (sampleDocC4.add_segment segX (some "nope")) = sampleDocC4 :=
  add_segment_error_leaves_document_unchanged sampleDocC4 segX (some "nope")
    (.nameError "no track with this name") _ rfl

/-! ## C3 — materials are not exactly-once across the board -/

/-- A text bubble with effect id `"eb"`. -/
def c3bubble : TextBubble := ⟨"gb", "eb", "rb"⟩

/-- First subtitle-style text segment sharing `c3bubble`. -/
def c3seg1 : Text_segment := ⟨⟨0, 10⟩, "x1", "hi", none, some c3bubble, none⟩

/-- Second text segment sharing the same bubble instance. -/
def c3seg2 : Text_segment := ⟨⟨10, 10⟩, "x2", "yo", none, some c3bubble, none⟩

/-- Draft with one authored text track. -/
def c3doc : Script_file :=
  { Script_file.create 1080 1920 30 with tracks := [⟨.text, "t", 0, false, [], []⟩] }

/-- C3 counterexample: two successful `add_segment` calls sharing one bubble
instance (effect id `"eb"`) leave that id **twice** in the `effects` category
of the exported materials — bubbles are appended per segment without any
containment check (script_file.py:399-400), refuting exactly-once. -/
theorem shared_bubble_exported_twice_counterexample :
    resultOk (c3doc.add_segment (.text c3seg1) (some "t")) = true
    ∧ resultOk ((resultState (c3doc.add_segment (.text c3seg1) (some "t"))).add_segment
        (.text c3seg2) (some "t")) = true
    ∧ ((resultState ((resultState (c3doc.add_segment (.text c3seg1) (some "t"))).add_segment
        (.text c3seg2) (some "t"))).dumps_effects_ids.count "eb") = 2 := by
  decide

/-- Duplicate-freedom of the identity-checked material categories: the lists
whose registration goes through `Script_material.__contains__`. -/
def dedupInvariant (m : Script_material) : Prop :=
  (m.videos.map Video_material.material_id).Nodup
  ∧ (m.audios.map Audio_material.material_id).Nodup
  ∧ (m.animations.map Segment_animations.animation_id).Nodup
  ∧ (m.video_effects.map Video_effect.global_id).Nodup
  ∧ (m.audio_effects.map Audio_effect.effect_id).Nodup
  ∧ (m.audio_fades.map Audio_fade.fade_id).Nodup
  ∧ (m.transitions.map Transition.global_id).Nodup

lemma guardedAppendBy_nodup {α : Type} (key : α → String) (l : List α) (x : α)
    (h : (l.map key).Nodup) : ((guardedAppendBy key l x).map key).Nodup := by
  unfold guardedAppendBy
  split
  · exact h
  · rename_i hany
    rw [List.map_append]
    simp only [List.map_cons, List.map_nil]
    rw [List.nodup_append]
    refine ⟨h, List.nodup_singleton _, ?_⟩
    intro a ha hb
    simp only [List.mem_singleton] at hb
    subst hb
    obtain ⟨y, hy, hky⟩ := List.mem_map.mp ha
    exact hany (List.any_eq_true.mpr ⟨y, hy, by simp [hky]⟩)

lemma foldl_guardedAppendBy_nodup {α β : Type} (key : α → String) (f : β → α) :
    ∀ (xs : List β) (l : List α), (l.map key).Nodup →
      ((xs.foldl (fun acc e => guardedAppendBy key acc (f e)) l).map key).Nodup := by
  intro xs
  induction xs with
  | nil => intro l h; exact h
  | cons x xs ih => intro l h; exact ih _ (guardedAppendBy_nodup key l (f x) h)

lemma regAnimation_nodup (m : Script_material) (a : Option Segment_animations)
    (h : (m.animations.map Segment_animations.animation_id).Nodup) :
    ((m.regAnimation a).animations.map Segment_animations.animation_id).Nodup := by
  cases a with
  | none => exact h
  | some a => exact guardedAppendBy_nodup _ _ _ h

lemma regTransition_nodup (m : Script_material) (t : Option Transition)
    (h : (m.transitions.map Transition.global_id).Nodup) :
    ((m.regTransition t).transitions.map Transition.global_id).Nodup := by
  cases t with
  | none => exact h
  | some t => exact guardedAppendBy_nodup _ _ _ h

lemma regFade_nodup (m : Script_material) (f : Option Audio_fade)
    (h : (m.audio_fades.map Audio_fade.fade_id).Nodup) :
    ((m.regFade f).audio_fades.map Audio_fade.fade_id).Nodup := by
  cases f with
  | none => exact h
  | some f => exact guardedAppendBy_nodup _ _ _ h

lemma registerSegmentMaterials_dedup (sf2 : Script_file) (segment : Seg)
    (hinv : dedupInvariant sf2.materials) :
    dedupInvariant (sf2.registerSegmentMaterials segment).materials := by
  obtain ⟨h1, h2, h3, h4, h5, h6, h7⟩ := hinv
  cases segment with
  | video v =>
    obtain ⟨trange, mat, anim, effs, filts, mask, trans, bg, speed⟩ := v
    cases anim <;> cases trans <;>
    · simp only [Script_file.registerSegmentMaterials, Script_file.add_material_video,
        Script_material.regAnimation, Script_material.regVideoEffects, Script_material.regFilters,
        Script_material.regMask, Script_material.regTransition, Script_material.regCanvas,
        Script_material.regSpeed, dedupInvariant]
      refine ⟨guardedAppendBy_nodup _ _ _ h1, h2, ?_,
        foldl_guardedAppendBy_nodup _ (fun e => e) effs _ h4, h5, h6, ?_⟩
      · first
        | exact h3
        | exact guardedAppendBy_nodup _ _ _ h3
      · first
        | exact h7
        | exact guardedAppendBy_nodup _ _ _ h7
  | audio a =>
    obtain ⟨trange, mat, fade, effs, speed⟩ := a
    cases fade <;>
    · simp only [Script_file.registerSegmentMaterials, Script_file.add_material_audio,
        Script_material.regFade, Script_material.regAudioEffects, Script_material.regSpeed,
        dedupInvariant]
      refine ⟨h1, guardedAppendBy_nodup _ _ _ h2, h3, h4,
        foldl_guardedAppendBy_nodup _ (fun e => e) effs _ h5, ?_, h7⟩
      first
      | exact h6
      | exact guardedAppendBy_nodup _ _ _ h6
  | text t =>
    obtain ⟨trange, matId, content, anim, bubble, eff⟩ := t
    cases anim <;>
    · simp only [Script_file.registerSegmentMaterials, Script_material.regAnimation,
        Script_material.regBubble, Script_material.regTextEffect, dedupInvariant]
      refine ⟨h1, h2, ?_, h4, h5, h6, h7⟩
      first
      | exact h3
      | exact guardedAppendBy_nodup _ _ _ h3
  | sticker s =>
    simp only [Script_file.registerSegmentMaterials, dedupInvariant]
    exact ⟨h1, h2, h3, h4, h5, h6, h7⟩
  | effect e => exact ⟨h1, h2, h3, h4, h5, h6, h7⟩
  | filt f => exact ⟨h1, h2, h3, h4, h5, h6, h7⟩
  | imported i => exact ⟨h1, h2, h3, h4, h5, h6, h7⟩

/-- C3 amended: the identity-checked categories — video/audio assets,
animations, video effects, audio effects, fades and transitions — do stay
duplicate-free across any successful `add_segment`; the exactly-once wording
fails only for the unconditionally appended kinds (masks, speeds, canvases,
stickers, texts, bubbles, flower-text effects), as the counterexample shows. -/
theorem add_segment_preserves_dedup_materials (sf : Script_file) (segment : Seg)
    (track_name : Option String) (sf1 : Script_file)
    (h : sf.add_segment segment track_name = .ok sf1)
    (hinv : dedupInvariant sf.materials) : dedupInvariant sf1.materials := by
  unfold Script_file.add_segment at h
  cases hk : segment.kind with
  | none => simp only [hk] at h; exact Except.noConfusion h
  | some k =>
  simp only [hk] at h
  cases hf : sf.findTargetTrack k track_name with
  | error e1 => simp only [hf] at h; exact Except.noConfusion h
  | ok loc =>
  simp only [hf] at h
  cases hg : sf.getTrackAt loc with
  | none => simp only [hg] at h; exact Except.noConfusion h
  | some target =>
  simp only [hg] at h
  cases ha : target.add_segment segment with
  | error e2 => simp only [ha] at h; exact Except.noConfusion h
  | ok target1 =>
  simp only [ha, Except.ok.injEq] at h
  subst h
  apply registerSegmentMaterials_dedup
  have hmats : ({ sf.updateTrackAt loc target1 with
      duration := (sf.updateTrackAt loc target1).duration ⊔ segment.end_ }).materials
        = sf.materials := by
    cases loc <;> rfl
  rw [hmats]
  exact hinv

/-- Witness for the amended C3: a concrete successful `add_segment` on an
empty-materials draft keeps the identity-checked categories duplicate-free. -/
theorem add_segment_preserves_dedup_materials_witness :
    dedupInvariant (resultState (c3doc.add_segment (.text c3seg1) (some "t"))).materials :=
  add_segment_preserves_dedup_materials c3doc (.text c3seg1) (some "t") _ rfl
    (by constructor <;> simp [c3doc, Script_file.create, Script_material.empty])

/-! ## C9 — `add_effect_impl` requires an explicit parameter list -/

lemma add_track_named_allSegments (sf : Script_file) (tt : TrackType) (tn : String)
    (mute : Bool) (ri : Int) (ai : Option Int) :
    (sf.add_track_named tt tn mute ri ai).allSegments = sf.allSegments := by
  unfold Script_file.add_track_named
  split
  · rfl
  · simp [Script_file.allSegments]

lemma add_track_allSegments (sf : Script_file) (tt : TrackType) (tn : Option String)
    (mute : Bool) (ri : Int) (ai : Option Int) (s1 : Script_file)
    (h : sf.add_track tt tn mute ri ai = .ok s1) :
    s1.allSegments = sf.allSegments := by
  unfold Script_file.add_track at h
  cases tn with
  | none =>
    by_cases hc : (sf.tracks.any fun t => t.track_type == tt) = true
    · simp [hc] at h
    · simp [hc] at h
      subst h
      exact add_track_named_allSegments ..
  | some n =>
    simp only [Except.ok.injEq] at h
    subst h
    exact add_track_named_allSegments ..

lemma addEffectImplTrackStep_ok_allSegments (script : Script_file) (tn : Option String)
    (s1 : Script_file) (h : addEffectImplTrackStep script tn = .ok s1) :
    s1.allSegments = script.allSegments := by
  unfold addEffectImplTrackStep at h
  cases tn with
  | some n =>
    cases hg : script.get_imported_track .effect (some n) none with
    | ok t =>
      simp only [hg, Except.ok.injEq] at h
      subst h
      rfl
    | error e =>
      simp only [hg] at h
      by_cases htn : e.isTrackNotFound = true
      · simp only [htn, if_true] at h
        cases ha : script.add_track .effect (some n) false 0 none with
        | ok s2 =>
          simp only [ha, Except.ok.injEq] at h
          subst h
          exact add_track_allSegments _ _ _ _ _ _ _ ha
        | error e2 =>
          simp [ha] at h
      · simp [htn] at h
  | none =>
    cases ha : script.add_track .effect none false 0 none with
    | ok s2 =>
      simp only [ha, Except.ok.injEq] at h
      subst h
      exact add_track_allSegments _ _ _ _ _ _ _ ha
    | error e2 =>
      simp [ha] at h

/-- C9: `add_effect_impl` with the default `params=None` always raises — the
evaluation of `params[::-1]` is a `TypeError` on `None` — and the raise
happens before `Script_file.add_effect` runs: no segment anywhere in the
document is added by the failed call (only an empty effect track may have
been created).  When the enum lookup and the track step succeed, the error is
precisely that `TypeError`, and a passed list reaches `add_effect` reversed. -/
theorem add_effect_impl_requires_params (script : Script_file) (effect_type : String)
    (start stop : ℚ) (track_name : Option String) :
    (∃ e d, add_effect_impl script effect_type start stop track_name none = .error (e, d)
        ∧ d.allSegments = script.allSegments)
    ∧ (∀ effect_enum script1 (l : List (Option ℚ)),
        (effectTypeTable.find? (fun p => p.1 == effect_type)).map Prod.snd = some effect_enum →
        addEffectImplTrackStep script track_name = .ok script1 →
        add_effect_impl script effect_type start stop track_name none
            = .error (.typeError "NoneType object is not subscriptable", script1)
        ∧ add_effect_impl script effect_type start stop track_name (some l)
            = script1.add_effect effect_enum ⟨tim_seconds start, tim_seconds (stop - start)⟩
                track_name (some l.reverse)) := by
  constructor
  · cases hl : (effectTypeTable.find? (fun p => p.1 == effect_type)).map Prod.snd with
    | none =>
      refine ⟨.keyError effect_type, script, ?_, rfl⟩
      unfold add_effect_impl
      rw [hl]
    | some em =>
      cases ht : addEffectImplTrackStep script track_name with
      | error e =>
        obtain ⟨e1, d1⟩ := e
        have hd : d1 = script := by
          unfold addEffectImplTrackStep at ht
          cases track_name with
          | some n =>
            cases hg : script.get_imported_track .effect (some n) none with
            | ok t =>
              simp only [hg] at ht
              exact Except.noConfusion ht
            | error e2 =>
              simp only [hg] at ht
              by_cases htn : e2.isTrackNotFound = true
              · simp only [htn, if_true] at ht
                cases ha : script.add_track .effect (some n) false 0 none with
                | ok s2 =>
                  simp only [ha] at ht
                  exact Except.noConfusion ht
                | error e3 =>
                  simp only [ha, Except.error.injEq, Prod.mk.injEq] at ht
                  exact ht.2.symm
              · simp [htn] at ht
                exact ht.2.symm
          | none =>
            cases ha : script.add_track .effect none false 0 none with
            | ok s2 =>
              simp only [ha] at ht
              exact Except.noConfusion ht
            | error e3 =>
              simp only [ha, Except.error.injEq, Prod.mk.injEq] at ht
              exact ht.2.symm
        refine ⟨e1, d1, ?_, by rw [hd]⟩
        unfold add_effect_impl
        rw [hl, ht]
      | ok s1 =>
        refine ⟨.typeError "NoneType object is not subscriptable", s1, ?_,
          addEffectImplTrackStep_ok_allSegments _ _ _ ht⟩
        unfold add_effect_impl
        rw [hl, ht]
  · intro em s1 l hl ht
    constructor
    · unfold add_effect_impl
      rw [hl, ht]
    · unfold add_effect_impl
      rw [hl, ht]

/-- Witness for C9: on a concrete draft with a concrete known effect type and
named track, the `None` parameter list produces exactly the `TypeError`
carrying the state after the track step. -/
theorem add_effect_impl_requires_params_witness :
    add_effect_impl (Script_file.create 1080 1920 30) "Glitch" 0 3 (some "e1") none
      = .error (.typeError "NoneType object is not subscriptable",
          resultState (addEffectImplTrackStep (Script_file.create 1080 1920 30) (some "e1"))) :=
  ((add_effect_impl_requires_params (Script_file.create 1080 1920 30) "Glitch" 0 3
      (some "e1")).2
    ⟨"Glitch", "effect_glitch", 2⟩
    (resultState (addEffectImplTrackStep (Script_file.create 1080 1920 30) (some "e1")))
    [] rfl rfl).1

/-! ## C8 — malformed subtitle index lines -/

lemma srtLoop_append (cfg : SrtCfg) :
    ∀ (xs ys : List String) (st : SrtState),
      srtLoop cfg (xs ++ ys) st
        = match srtLoop cfg xs st with
          | .error e => .error e
          | .ok m => srtLoop cfg ys m := by
  intro xs
  induction xs with
  | nil => intro ys st; rfl
  | cons line rest ih =>
    intro ys st
    rw [List.cons_append]
    cases hstep : srtStep cfg line st with
    | error e => simp [srtLoop, hstep]
    | ok st1 => simp [srtLoop, hstep, ih]

lemma srtStep_lineNo (cfg : SrtCfg) (line : String) (st st1 : SrtState)
    (h : srtStep cfg line st = .ok st1) : st1.lineNo = st.lineNo + 1 := by
  unfold srtStep at h
  repeat' split at h
  all_goals first
    | exact Except.noConfusion h
    | (injection h with h2; subst h2; rfl)

lemma srtLoop_lineNo (cfg : SrtCfg) :
    ∀ (xs : List String) (st m : SrtState), srtLoop cfg xs st = .ok m →
      m.lineNo = st.lineNo + xs.length := by
  intro xs
  induction xs with
  | nil =>
    intro st m h
    injection h with h2
    subst h2
    rfl
  | cons line rest ih =>
    intro st m h
    unfold srtLoop at h
    cases hstep : srtStep cfg line st with
    | error e =>
      simp only [hstep] at h
      exact Except.noConfusion h
    | ok st1 =>
      simp only [hstep] at h
      have h1 := ih st1 m h
      have h2 := srtStep_lineNo cfg line st st1 hstep
      simp only [List.length_cons]
      omega

/-- C8: whenever the `import_srt` line loop, standing at the start of a cue
(`read_state = "index"`) after cleanly consuming a prefix of lines, reads a
non-empty line that is not made of digits only, the whole call fails with the
`Expected a number at line %d` error carrying the 1-based position of that
line, and the document carries only the segments of the previously completed
cues — nothing of the offending cue. -/
theorem import_srt_malformed_index_line
    (sf : Script_file) (lines rest : List String) (badLine : String)
    (track_name : String) (time_offset : Int) (style_reference : Option Text_segment)
    (font : Option String) (clip_settings : Option Unit)
    (bubble : Option TextBubble) (effect : Option TextEffect)
    (fontType : Option String) (m : SrtState)
    (hcs : ¬(style_reference.isNone ∧ clip_settings.isNone))
    (hfont : importSrtFont font = .ok fontType)
    (hrun : srtLoop ⟨track_name, time_offset, style_reference, fontType, bubble, effect⟩ lines
        ⟨sf.importSrtInit track_name, 0, "", none, .idx⟩ = .ok m)
    (hidx : m.read_state = .idx)
    (hne : pyStrip badLine ≠ "") (hdig : pyIsDigit (pyStrip badLine) = false) :
    sf.import_srt (lines ++ badLine :: rest) track_name time_offset style_reference font
        clip_settings bubble effect
      = .error (.valueErrorLine (lines.length + 1) (pyStrip badLine), m.doc) := by
  have hlineNo := srtLoop_lineNo _ lines _ m hrun
  have hne' : (pyStrip badLine).isEmpty = false := by
    cases hx : (pyStrip badLine).isEmpty
    · rfl
    · exact absurd ((String.isEmpty_iff (pyStrip badLine)).mp hx) hne
  unfold Script_file.import_srt
  rw [if_neg hcs]
  simp only [hfont]
  rw [srtLoop_append]
  rw [hrun]
  unfold srtLoop srtStep
  simp only [hidx, hne', Bool.false_eq_true, if_false, hdig, Bool.not_false, if_true]
  rw [hlineNo]
  simp

/-- Witness for C8: feeding the single line `"abc"` fails at 1-based line 1
with the malformed-index error, leaving the document without any cue. -/
theorem import_srt_malformed_index_line_witness :
    (Script_file.create 1080 1920 30).import_srt ["abc"] "sub" 0 none none (some ()) none none
      = .error (.valueErrorLine 1 "abc", (Script_file.create 1080 1920 30).importSrtInit "sub") := by
  have h := import_srt_malformed_index_line (Script_file.create 1080 1920 30) [] [] "abc"
    "sub" 0 none none (some ()) none none none
    ⟨(Script_file.create 1080 1920 30).importSrtInit "sub", 0, "", none, .idx⟩
    (by decide) rfl rfl rfl (by decide) (by decide)
  exact h.trans rfl

/-! ## C10 — `import_srt` with no font cannot complete a cue -/

lemma ne_empty_isEmpty_false (s : String) (h : s ≠ "") : s.isEmpty = false := by
  cases hx : s.isEmpty
  · rfl
  · exact absurd ((String.isEmpty_iff s).mp hx) h

lemma srtLoop_blanks (cfg : SrtCfg) :
    ∀ (blanks : List String) (st : SrtState), (∀ b ∈ blanks, pyStrip b = "") →
      st.read_state = .idx →
      srtLoop cfg blanks st = .ok { st with lineNo := st.lineNo + blanks.length } := by
  intro blanks
  induction blanks with
  | nil => intro st _ _; rfl
  | cons b bs ih =>
    intro st hb hst
    have hb0 : pyStrip b = "" := hb b (List.mem_cons_self b bs)
    have hstep : srtStep cfg b st = .ok { st with lineNo := st.lineNo + 1 } := by
      unfold srtStep
      simp only [hst, hb0]
      rfl
    unfold srtLoop
    simp only [hstep]
    have hrec := ih { st with lineNo := st.lineNo + 1 }
      (fun x hx => hb x (List.mem_cons_of_mem _ hx)) hst
    rw [hrec]
    have harith : st.lineNo + 1 + bs.length = st.lineNo + (b :: bs).length := by
      simp only [List.length_cons]
      omega
    simp only [harith]

lemma srtLoop_contents (cfg : SrtCfg) :
    ∀ (cs : List String) (st : SrtState), (∀ c ∈ cs, pyStrip c ≠ "") →
      st.read_state = .content →
      ∃ txt, srtLoop cfg cs st
        = .ok { st with lineNo := st.lineNo + cs.length, text := txt } := by
  intro cs
  induction cs with
  | nil => intro st _ _; exact ⟨st.text, rfl⟩
  | cons c cs ih =>
    intro st hc hst
    have hc0 : (pyStrip c).isEmpty = false :=
      ne_empty_isEmpty_false _ (hc c (List.mem_cons_self c cs))
    have hstep : srtStep cfg c st
        = .ok { st with
                lineNo := st.lineNo + 1
                text := st.text ++ (pyStrip c) ++ "\n" } := by
      unfold srtStep
      simp only [hst, hc0, Bool.false_eq_true, if_false]
    unfold srtLoop
    simp only [hstep]
    obtain ⟨txt, hrec⟩ := ih
      { st with
        lineNo := st.lineNo + 1
        text := st.text ++ (pyStrip c) ++ "\n" }
      (fun x hx => hc x (List.mem_cons_of_mem _ hx)) hst
    refine ⟨txt, ?_⟩
    rw [hrec]
    have harith : st.lineNo + 1 + cs.length = st.lineNo + (c :: cs).length := by
      simp only [List.length_cons]
      omega
    simp only [harith]

/-- C10: with the default `font=None`, any subtitle input holding one
complete cue (optional blank lines, a digit index line, a well-formed
timestamp line, non-blank content lines, a blank terminator) makes
`import_srt` raise the unbound-local error on `font_type` while building the
first text segment; the call can only complete when a valid font name was
supplied. -/
theorem import_srt_unassigned_font_raises
    (sf : Script_file) (track_name : String) (time_offset : Int)
    (style_reference : Option Text_segment) (clip_settings : Option Unit)
    (bubble : Option TextBubble) (effect : Option TextEffect)
    (blanks : List String) (idxLine tsLine : String) (contents rest : List String)
    (s1 s2 : String) (v1 v2 : Int)
    (hcs : ¬(style_reference.isNone ∧ clip_settings.isNone))
    (hblanks : ∀ b ∈ blanks, pyStrip b = "")
    (hidx1 : pyStrip idxLine ≠ "") (hidx2 : pyIsDigit (pyStrip idxLine) = true)
    (hsplit : splitArrow (pyStrip tsLine).data [] = [s1, s2])
    (hts1 : srt_tstamp s1 = .ok v1) (hts2 : srt_tstamp s2 = .ok v2)
    (hcontents : ∀ c ∈ contents, pyStrip c ≠ "") :
    sf.import_srt (blanks ++ idxLine :: tsLine :: (contents ++ "" :: rest)) track_name
        time_offset style_reference none clip_settings bubble effect
      = .error (.unboundLocal "font_type", sf.importSrtInit track_name) := by
  have hidx1' : (pyStrip idxLine).isEmpty = false := ne_empty_isEmpty_false _ hidx1
  unfold Script_file.import_srt
  rw [if_neg hcs]
  simp only [importSrtFont]
  rw [srtLoop_append]
  rw [srtLoop_blanks _ blanks _ hblanks rfl]
  set cfg : SrtCfg := ⟨track_name, time_offset, style_reference, none, bubble, effect⟩ with hcfg
  set st1 : SrtState :=
    { doc := sf.importSrtInit track_name
      lineNo := 0 + blanks.length
      text := ""
      text_trange := none
      read_state := .idx } with hst1
  have hstep1 : srtStep cfg idxLine st1
      = .ok { st1 with lineNo := st1.lineNo + 1, read_state := .timestamp } := by
    unfold srtStep
    simp only [hst1, hidx1', hidx2, Bool.false_eq_true, if_false, Bool.not_true]
  have hstep2 : srtStep cfg tsLine { st1 with lineNo := st1.lineNo + 1, read_state := .timestamp }
      = .ok { st1 with
              lineNo := st1.lineNo + 1 + 1
              read_state := .content
              text_trange := some ⟨v1 + cfg.time_offset, v2 - v1⟩ } := by
    unfold srtStep
    simp only [hsplit, hts1, hts2]
  unfold srtLoop
  simp only [hstep1]
  unfold srtLoop
  simp only [hstep2]
  rw [srtLoop_append]
  obtain ⟨txt, hct⟩ := srtLoop_contents cfg contents
    { st1 with
      lineNo := st1.lineNo + 1 + 1
      read_state := .content
      text_trange := some ⟨v1 + cfg.time_offset, v2 - v1⟩ }
    hcontents rfl
  rw [hct]
  unfold srtLoop
  have hflush : srtStep cfg ""
      { st1 with
        lineNo := st1.lineNo + 1 + 1 + contents.length
        read_state := .content
        text_trange := some ⟨v1 + cfg.time_offset, v2 - v1⟩
        text := txt }
      = .error (.unboundLocal "font_type", st1.doc) := by
    unfold srtStep
    simp only [addTextSegmentSrt]
    rfl
  simp only at hct ⊢
  simp only [hflush]

/-- Witness for C10: a complete one-cue subtitle with `font=None` raises the
unbound `font_type` error instead of importing the cue. -/
theorem import_srt_unassigned_font_raises_witness :
    (Script_file.create 1080 1920 30).import_srt
        ["1", "00:00:00,000 --> 00:00:01,000", "hi", ""] "sub" 0 none none (some ()) none none
      = .error (.unboundLocal "font_type", (Script_file.create 1080 1920 30).importSrtInit "sub") :=
  import_srt_unassigned_font_raises (Script_file.create 1080 1920 30) "sub" 0 none (some ())
    none none [] "1" "00:00:00,000 --> 00:00:01,000" ["hi"] []
    "00:00:00,000" "00:00:01,000" 0 1000000
    (by decide) (fun b hb => absurd hb (List.not_mem_nil b))
    (by decide) (by decide) (by decide) (by decide) (by decide)
    (by intro c hc; simp only [List.mem_singleton] at hc; subst hc; decide)

end CapCut
